import Mathlib

/-!
Shallow embedding of the bodhi-ui design-token core:

* `packages/tokens/src/schema/rupa-validator.js` — schema validator
  (`isValidCSSColor`, `validateColorValues`, `validateRupa`);
* `packages/tokens/src/contrast.js` — WCAG 2.1 colour mathematics
  (`sRGBtoLinear`, `relativeLuminance`, `contrastRatio`, `meetsContrast`,
  `hexToHSL`, `hslToHex`, `adjustForContrast`);
* `packages/tokens/src/lookup/poetic-tokens.js` — token registry
  (`spatialTokens`, `communicativeTokens`, `voiceTokens`, `resolveToken`);
* `packages/cli/src/commands/token.js` — the compiler / stylesheet emitter
  (`buildColorMap`, `generateContrastAdjustments`,
  `generateContrastAdjustmentCSS`, the per-category section generators and
  `tokenCompile`).

Modelling conventions: JavaScript numbers are idealised as exact arithmetic.
All operations of the source except `Math.pow(x, 2.4)` are rational, so the
HSL machinery lives in `ℚ` (computable); luminance and contrast, which pass
through the 2.4-power, live in `ℝ` via `Real.rpow`.  `NaN` (produced by
`parseInt` on a non-numeral) is modelled by `Option`: `none` stands for a
`NaN` result, and every comparison against a `NaN` is false, exactly as in
JavaScript.  JSON trees are modelled by `JVal`/`JObj`; object iteration
order is insertion order, as in JavaScript.
-/

set_option maxHeartbeats 1000000
set_option autoImplicit false

mutual

/-- A JSON value as the compiler sees one (`JSON.parse` output).  Arrays do
not occur in any brand specification exercised here and are omitted from
the model. -/
inductive JVal where
  | jstr (s : String)
  | jnum (q : ℚ)
  | jbool (b : Bool)
  | jnull
  | jobj (o : JObj)

/-- A JSON object: an insertion-ordered association list, mirroring the
enumeration order of `Object.entries` / `Object.keys`. -/
inductive JObj where
  | nil
  | cons (k : String) (v : JVal) (o : JObj)

end

open JVal JObj

/-- Property access `o[k]`: first binding wins (JS objects have unique
keys). `none` models `undefined`. -/
def lookupJ : JObj → String → Option JVal
  | .nil, _ => none
  | .cons k v o, key => if k = key then some v else lookupJ o key

/-- `Object.keys`, in insertion order. -/
def keysJ : JObj → List String
  | .nil => []
  | .cons k _ o => k :: keysJ o

/-- `Object.entries`, in insertion order. -/
def entriesJ : JObj → List (String × JVal)
  | .nil => []
  | .cons k v o => (k, v) :: entriesJ o

/-- JavaScript truthiness of a JSON value (`!v` is its negation).  `""`,
`0`, `false` and `null` are falsy; every object is truthy. -/
def jsTruthy : JVal → Bool
  | .jstr s => s ≠ ""
  | .jnum q => q ≠ 0
  | .jbool b => b
  | .jnull => false
  | .jobj _ => true

/-- `typeof v === 'object' && v !== null` (within this model only plain
objects qualify; `typeof null` is `'object'` in JS but the source always
conjoins the null test). -/
def isJObject : JVal → Bool
  | .jobj _ => true
  | _ => false

/-- `String(v)` / template interpolation, for the value shapes the
compiler prints.  Brand token values exercised by the claims are strings;
numbers are rendered via `ℚ`'s representation (JS float formatting agrees
on integers). -/
def jvalToString : JVal → String
  | .jstr s => s
  | .jnum q => if q.den = 1 then toString q.num else toString q
  | .jbool b => if b then "true" else "false"
  | .jnull => "null"
  | .jobj _ => "[object Object]"

/-! ### Hex parsing (`parseInt(·, 16)` over substrings of a hex literal) -/

/-- The value of one hexadecimal digit, as `parseInt` base 16 reads it
(both cases accepted). -/
def hexDigitVal (c : Char) : Option ℕ :=
  if 48 ≤ c.toNat ∧ c.toNat ≤ 57 then some (c.toNat - 48)
  else if 97 ≤ c.toNat ∧ c.toNat ≤ 102 then some (c.toNat - 87)
  else if 65 ≤ c.toNat ∧ c.toNat ≤ 70 then some (c.toNat - 55)
  else none

/-- `parseInt(s, 16)`: the value of the maximal leading run of hex digits;
`none` (NaN) when the run is empty.  (Sign/whitespace prefixes never occur
in the substrings the source extracts from a hex colour.) -/
def parseIntHex (l : List Char) : Option ℕ :=
  let digits := l.takeWhile (fun c => (hexDigitVal c).isSome)
  match digits with
  | [] => none
  | _ => some (digits.foldl (fun acc c => 16 * acc + ((hexDigitVal c).getD 0)) 0)

/-- `hex.replace('#', '')`: removes the first `#` occurrence. -/
def removeFirstHash : List Char → List Char
  | [] => []
  | c :: rest => if c = '#' then rest else c :: removeFirstHash rest

/-- The normalisation both `relativeLuminance` and `hexToHSL` perform:
strip `#`, then expand a 3-digit shorthand by doubling each character. -/
def normalizeHex (hex : String) : List Char :=
  let l := removeFirstHash hex.toList
  if l.length = 3 then l.flatMap (fun c => [c, c]) else l

/-- The three channel extractions `parseInt(hexValue.substr(0|2|4, 2), 16)`;
`none` when any of them is NaN (e.g. the empty blue slice of a 4-digit
hex). -/
def channels (hex : String) : Option (ℕ × ℕ × ℕ) :=
  let l := normalizeHex hex
  match parseIntHex (l.take 2), parseIntHex ((l.drop 2).take 2),
        parseIntHex ((l.drop 4).take 2) with
  | some r, some g, some b => some (r, g, b)
  | _, _, _ => none

/-! ### HSL conversions (exact rational arithmetic) -/

/-- The `{h, s, l}` record returned by `hexToHSL` (h in 0..360, s/l in
0..100). -/
structure HSL where
  h : ℚ
  s : ℚ
  l : ℚ
deriving DecidableEq, Repr

/-- `hexToHSL` of `contrast.js`; `none` models the all-NaN record an
unparseable hex produces. -/
def hexToHSL (hex : String) : Option HSL :=
  match channels hex with
  | none => none
  | some (r0, g0, b0) =>
    let r : ℚ := r0 / 255
    let g : ℚ := g0 / 255
    let b : ℚ := b0 / 255
    let mx := max r (max g b)
    let mn := min r (min g b)
    let delta := mx - mn
    let l := (mx + mn) / 2
    if delta = 0 then some ⟨0, 0, l * 100⟩
    else
      let s := if l > 1/2 then delta / (2 - mx - mn) else delta / (mx + mn)
      let h := if mx = r then ((g - b) / delta + (if g < b then 6 else 0)) / 6
        else if mx = g then ((b - r) / delta + 2) / 6
        else ((r - g) / delta + 4) / 6
      some ⟨h * 360, s * 100, l * 100⟩

/-- JS `Math.round`: half-up, i.e. `⌊x + 1/2⌋`. -/
def jround (x : ℚ) : ℤ := ⌊x + 1/2⌋

/-- Truncation toward zero, the rounding JS `%` applies to its quotient. -/
def qtrunc (x : ℚ) : ℤ := if 0 ≤ x then ⌊x⌋ else -⌊-x⌋

/-- JS remainder `a % b` (sign of the dividend). -/
def jsMod (a b : ℚ) : ℚ := a - b * (qtrunc (a / b))

/-- `n.toString(16)` for a nonnegative integer (lowercase digits). -/
def natToHex (n : ℕ) : String := String.mk (Nat.toDigits 16 n)

/-- `n.toString(16)` for a JS integer. -/
def intToHex (i : ℤ) : String :=
  if i < 0 then "-" ++ natToHex i.natAbs else natToHex i.toNat

/-- The `toHex` closure of `hslToHex`: round `(val + m) * 255`, render in
base 16, left-pad to two digits. -/
def toHexByte (v m : ℚ) : String :=
  let hx := intToHex (jround ((v + m) * 255))
  if hx.length = 1 then "0" ++ hx else hx

/-- `hslToHex` of `contrast.js` (h in 0..360, s/l in 0..100). -/
def hslToHex (h s l : ℚ) : String :=
  let hNorm := h / 360
  let sNorm := s / 100
  let lNorm := l / 100
  let c := (1 - |2 * lNorm - 1|) * sNorm
  let x := c * (1 - |jsMod (hNorm * 6) 2 - 1|)
  let m := lNorm - c / 2
  let rgb : ℚ × ℚ × ℚ :=
    if hNorm < 1/6 then (c, x, 0)
    else if hNorm < 2/6 then (x, c, 0)
    else if hNorm < 3/6 then (0, c, x)
    else if hNorm < 4/6 then (0, x, c)
    else if hNorm < 5/6 then (x, 0, c)
    else (c, 0, x)
  "#" ++ toHexByte rgb.1 m ++ toHexByte rgb.2.1 m ++ toHexByte rgb.2.2 m

/-! ### WCAG 2.1 luminance and contrast (`contrast.js`)

The 2.4-power of `sRGBtoLinear` is `Real.rpow`, so these functions are
noncomputable; concrete facts about them are settled by rational
bracketing (`q ≤ y^(12/5) ↔ q^5 ≤ y^12`). -/

/-- `sRGBtoLinear` of `contrast.js`: linearise one sRGB channel
(0..255). -/
noncomputable def sRGBtoLinear (channel : ℚ) : ℝ :=
  let c : ℚ := channel / 255
  if c ≤ 0.03928 then ((c / 12.92 : ℚ) : ℝ)
  else (((c : ℝ) + 0.055) / 1.055) ^ (2.4 : ℝ)

/-- `relativeLuminance` of `contrast.js`.  `none` models the NaN a
malformed hex yields (e.g. a 4-digit hex, whose blue slice is the empty
string). -/
noncomputable def relativeLuminance (hex : String) : Option ℝ :=
  match channels hex with
  | some (r, g, b) =>
    some (0.2126 * sRGBtoLinear r + 0.7152 * sRGBtoLinear g
      + 0.0722 * sRGBtoLinear b)
  | none => none

/-- `contrastRatio` of `contrast.js`; `none` models a NaN ratio (one of
the colours failed to parse). -/
noncomputable def contrastRatio (color1 color2 : String) : Option ℝ :=
  match relativeLuminance color1, relativeLuminance color2 with
  | some l1, some l2 => some ((max l1 l2 + 0.05) / (min l1 l2 + 0.05))
  | _, _ => none

/-- `meetsContrast` of `contrast.js`: `contrastRatio(fg,bg) >= target`.
A NaN ratio compares false, as in JS. -/
def meetsContrast (foreground background : String) (target : ℝ) : Prop :=
  ∃ r, contrastRatio foreground background = some r ∧ target ≤ r

open Classical in
/-- The binary-search loop of `adjustForContrast`, with the iteration
counter as fuel (starts at the source's `maxIterations = 50`).  State is
`(minL, maxL, bestL)`; the result is the final `bestL`.  A NaN test ratio
(`none`) makes every comparison false, which lands in the source's final
`else` arm — exactly JS's NaN behaviour. -/
noncomputable def adjustSearch (h s : ℚ) (background : String) (target : ℝ)
    (shouldLighten : Bool) : ℕ → ℚ → ℚ → ℚ → ℚ
  | 0, _, _, bestL => bestL
  | fuel + 1, minL, maxL, bestL =>
    if maxL - minL > 0.1 then
      let testL := (minL + maxL) / 2
      let testColor := hslToHex h s testL
      match contrastRatio testColor background with
      | some ratio =>
        if |ratio - target| < 0.1 then testL
        else if ratio < target then
          if shouldLighten then
            adjustSearch h s background target shouldLighten fuel testL maxL bestL
          else
            adjustSearch h s background target shouldLighten fuel minL testL bestL
        else
          if shouldLighten then
            adjustSearch h s background target shouldLighten fuel minL testL testL
          else
            adjustSearch h s background target shouldLighten fuel testL maxL testL
      | none =>
        -- NaN ratio: |NaN - t| < 0.1 is false and NaN < t is false, so the
        -- source's final else arm runs (bestL := testL, then narrow).
        if shouldLighten then
          adjustSearch h s background target shouldLighten fuel minL testL testL
        else
          adjustSearch h s background target shouldLighten fuel testL maxL testL
    else bestL

open Classical in
/-- `adjustForContrast` of `contrast.js`.  Returns the foreground untouched
when it already meets the target; otherwise binary-searches lightness with
hue and saturation pinned, re-checks the candidate, and returns `none`
(the source's `null`) when the candidate still fails.  When a colour fails
to parse the source's NaN arithmetic makes the final `meetsContrast` check
false, so the observable result is also `null`: the `none` match arm below.
-/
noncomputable def adjustForContrast (foreground background : String)
    (target : ℝ) : Option String :=
  if meetsContrast foreground background target then some foreground
  else
    match hexToHSL foreground, relativeLuminance background with
    | some hsl, some bgLuminance =>
      let shouldLighten : Bool := decide (bgLuminance < 0.5)
      let bestL := adjustSearch hsl.h hsl.s background target shouldLighten
        50 0 100 hsl.l
      let adjustedColor := hslToHex hsl.h hsl.s bestL
      if meetsContrast adjustedColor background target then some adjustedColor
      else none
    | _, _ => none

/-! ### Schema validator (`rupa-validator.js`) -/

/-- `REQUIRED_CATEGORIES` of `rupa-validator.js`. -/
def REQUIRED_CATEGORIES : List String := ["varna", "lipi", "akasa"]

/-- `OPTIONAL_CATEGORIES` of `rupa-validator.js`. -/
def OPTIONAL_CATEGORIES : List String :=
  ["pramana", "sima", "chaya", "pratima", "calana", "ghanatva", "yukti"]

/-- `ALL_CATEGORIES` of `rupa-validator.js`. -/
def ALL_CATEGORIES : List String := REQUIRED_CATEGORIES ++ OPTIONAL_CATEGORIES

/-- `METADATA_FIELDS` of `rupa-validator.js`. -/
def METADATA_FIELDS : List String := ["name", "version", "$schema"]

/-- `CATEGORY_META` of `rupa-validator.js`: category id → (sanskrit,
purpose). -/
def CATEGORY_META : List (String × String × String) :=
  [("varna", "Varṇa", "Colors"), ("lipi", "Lipi", "Typography"),
   ("akasa", "Ākāśa", "Spacing"), ("pramana", "Pramāṇa", "Sizing"),
   ("sima", "Sīmā", "Borders"), ("chaya", "Chāyā", "Shadows"),
   ("pratima", "Pratimā", "Icons"), ("calana", "Calana", "Motion"),
   ("ghanatva", "Ghanatva", "Density"), ("yukti", "Yukti", "Special treatments")]

/-- `CATEGORY_META[cat]` (every category queried by the source is in the
table). -/
def categoryMeta (cat : String) : String × String :=
  (List.lookup cat CATEGORY_META).getD ("", "")

/-- A JS whitespace character as `String.prototype.trim` strips it (the
ASCII subset; the Unicode space classes never occur in token values). -/
def isJsWhitespace (c : Char) : Bool :=
  c = ' ' ∨ c = '\t' ∨ c = '\n' ∨ c = '\r' ∨ c = Char.ofNat 11 ∨ c = Char.ofNat 12

/-- `value.trim`. -/
def jsTrimChars (l : List Char) : List Char :=
  ((l.dropWhile isJsWhitespace).reverse.dropWhile isJsWhitespace).reverse

/-- `toLowerCase` on one character (ASCII; the colour grammar is ASCII). -/
def asciiToLower (c : Char) : Char :=
  if 'A' ≤ c ∧ c ≤ 'Z' then Char.ofNat (c.toNat + 32) else c

/-- `value.toLowerCase()`. -/
def asciiLower (l : List Char) : List Char := l.map asciiToLower

/-- The source's `s.startsWith(p)`. -/
def jsStartsWith (s p : String) : Bool := p.toList.isPrefixOf s.toList

/-- JS line terminators, which `.` in a regex without the `s` flag does
not match. -/
def isLineTerminator (c : Char) : Bool :=
  c = '\n' ∨ c = '\r' ∨ c = Char.ofNat 0x2028 ∨ c = Char.ofNat 0x2029

/-- A `\w` character: `[A-Za-z0-9_]`. -/
def isWordChar (c : Char) : Bool :=
  ('a' ≤ c ∧ c ≤ 'z') ∨ ('A' ≤ c ∧ c ≤ 'Z') ∨ ('0' ≤ c ∧ c ≤ '9') ∨ c = '_'

/-- A `[0-9a-f]` character under the `/i` flag. -/
def isHexDigitCI (c : Char) : Bool :=
  ('0' ≤ c ∧ c ≤ '9') ∨ ('a' ≤ c ∧ c ≤ 'f') ∨ ('A' ≤ c ∧ c ≤ 'F')

/-- The alternative `#([0-9a-f]{3,8})$` of `CSS_COLOR_RE`: a hash and then
between THREE AND EIGHT hex digits (so 5- and 7-digit strings match too —
the doc comment above the regex announces only `#rgb`, `#rrggbb`,
`#rrggbbaa`). -/
def matchesHexAlt : List Char → Bool
  | '#' :: rest =>
    3 ≤ rest.length ∧ rest.length ≤ 8 ∧ rest.all isHexDigitCI
  | _ => false

/-- A functional alternative `name\(.*\)$` of `CSS_COLOR_RE` (for `rgba?`,
`hsla?`, `oklch`): the name, `(`, any characters save line terminators,
and a final `)`. -/
def matchesFunctionalAlt (name : String) (l : List Char) : Bool :=
  let pre := (name ++ "(").toList
  if pre.isPrefixOf l then
    let rest := l.drop pre.length
    rest ≠ [] ∧ rest.getLast? = some ')' ∧ rest.dropLast.all (fun c => ¬isLineTerminator c)
  else false

/-- The alternative `var\(--[\w-]+\)$` of `CSS_COLOR_RE`. -/
def matchesVarAlt (l : List Char) : Bool :=
  let pre := "var(--".toList
  if pre.isPrefixOf l then
    let rest := l.drop pre.length
    let body := rest.dropLast
    rest.getLast? = some ')' ∧ body ≠ [] ∧ body.all (fun c => isWordChar c ∨ c = '-')
  else false

/-- `CSS_COLOR_RE.test s`: the anchored regex
`^(#([0-9a-f]{3,8})|rgba?\(.*\)|hsla?\(.*\)|oklch\(.*\)|var\(--[\w-]+\)|transparent|currentColor|inherit|initial|unset|revert)$/i`.
The source applies it to an already-lowercased string, so the keyword
alternatives are written lowercased here. -/
def cssColorRegexTest (s : String) : Bool :=
  let l := s.toList
  matchesHexAlt l ∨ matchesFunctionalAlt "rgb" l ∨ matchesFunctionalAlt "rgba" l
    ∨ matchesFunctionalAlt "hsl" l ∨ matchesFunctionalAlt "hsla" l
    ∨ matchesFunctionalAlt "oklch" l ∨ matchesVarAlt l
    ∨ s = "transparent" ∨ s = "currentcolor" ∨ s = "inherit" ∨ s = "initial"
    ∨ s = "unset" ∨ s = "revert"

/-- `NAMED_COLORS` of `rupa-validator.js` (the CSS named-colour set, plus
`rebeccapurple`). -/
def NAMED_COLORS : List String :=
  ["black", "silver", "gray", "grey", "white", "maroon", "red", "purple",
   "fuchsia", "green", "lime", "olive", "yellow", "navy", "blue", "teal",
   "aqua", "orange", "aliceblue", "antiquewhite", "aquamarine", "azure",
   "beige", "bisque", "blanchedalmond", "blueviolet", "brown", "burlywood",
   "cadetblue", "chartreuse", "chocolate", "coral", "cornflowerblue",
   "cornsilk", "crimson", "cyan", "darkblue", "darkcyan", "darkgoldenrod",
   "darkgray", "darkgreen", "darkgrey", "darkkhaki", "darkmagenta",
   "darkolivegreen", "darkorange", "darkorchid", "darkred", "darksalmon",
   "darkseagreen", "darkslateblue", "darkslategray", "darkslategrey",
   "darkturquoise", "darkviolet", "deeppink", "deepskyblue", "dimgray",
   "dimgrey", "dodgerblue", "firebrick", "floralwhite", "forestgreen",
   "gainsboro", "ghostwhite", "gold", "goldenrod", "greenyellow", "honeydew",
   "hotpink", "indianred", "indigo", "ivory", "khaki", "lavender",
   "lavenderblush", "lawngreen", "lemonchiffon", "lightblue", "lightcoral",
   "lightcyan", "lightgoldenrodyellow", "lightgray", "lightgreen", "lightgrey",
   "lightpink", "lightsalmon", "lightseagreen", "lightskyblue",
   "lightslategray", "lightslategrey", "lightsteelblue", "lightyellow",
   "limegreen", "linen", "magenta", "mediumaquamarine", "mediumblue",
   "mediumorchid", "mediumpurple", "mediumseagreen", "mediumslateblue",
   "mediumspringgreen", "mediumturquoise", "mediumvioletred", "midnightblue",
   "mintcream", "mistyrose", "moccasin", "navajowhite", "oldlace",
   "olivedrab", "orangered", "orchid", "palegoldenrod", "palegreen",
   "paleturquoise", "palevioletred", "papayawhip", "peachpuff", "peru",
   "pink", "plum", "powderblue", "rosybrown", "royalblue", "saddlebrown",
   "salmon", "sandybrown", "seagreen", "seashell", "sienna", "skyblue",
   "slateblue", "slategray", "slategrey", "snow", "springgreen", "steelblue",
   "tan", "thistle", "tomato", "turquoise", "violet", "wheat", "whitesmoke",
   "yellowgreen", "rebeccapurple"]

/-- `isValidCSSColor` of `rupa-validator.js` on a string value (the
`typeof value !== 'string'` guard lives at the call sites of this model).
Trims, lowercases, then tests the regex or the named-colour set. -/
def isValidCSSColor (value : String) : Bool :=
  let trimmed := String.mk (asciiLower (jsTrimChars value.toList))
  cssColorRegexTest trimmed ∨ trimmed ∈ NAMED_COLORS

/-- `validateColorValues` of `rupa-validator.js`: walk an object depth
first, skip every `dark` key, and collect an error for each string leaf
that is not a valid CSS colour.  Mutation of the shared `errors` array is
modelled by returning the appended errors in push order. -/
def validateColorValues : JObj → String → List String
  | .nil, _ => []
  | .cons k v rest, path =>
    (if k = "dark" then []
     else
       let fullPath := path ++ "." ++ k
       match v with
       | .jobj o => validateColorValues o fullPath
       | .jstr s =>
         if isValidCSSColor s then []
         else ["Invalid CSS color at " ++ fullPath ++ ": \"" ++ s ++ "\""]
       | _ => []) ++ validateColorValues rest path

/-- The result record `{ valid, errors, warnings }` of `validateRupa`. -/
structure ValidationResult where
  valid : Bool
  errors : List String
  warnings : List String
deriving Repr

/-- The error text for a missing required category. -/
def missingCategoryError (cat : String) : String :=
  "Missing required category: \"" ++ cat ++ "\" (" ++ (categoryMeta cat).1
    ++ " — " ++ (categoryMeta cat).2 ++ "). Add a \"" ++ cat
    ++ "\" object to your Rūpa file."

/-- The warning text for a missing optional category. -/
def missingOptionalWarning (cat : String) : String :=
  "Optional category \"" ++ cat ++ "\" (" ++ (categoryMeta cat).1 ++ " — "
    ++ (categoryMeta cat).2 ++ ") not defined. Defaults will be used."

/-! ### Token registry (`poetic-tokens.js`) -/

/-- One poetic token's metadata record. -/
structure TokenDef where
  sanskrit : String
  devanagari : String
  intent : String
  markerIntegration : String
  defaultValue : String
  cssProperty : String
deriving Repr

/-- `spatialTokens` of `poetic-tokens.js` (Ākāśa), in declaration order. -/
def spatialTokens : List (String × TokenDef) :=
  [("sparsa", ⟨"sparśa", "स्पर्श", "Touch — intimate contact, deliberately close",
     "At decision points: potential M6 (cognitive overload)", "0.125rem",
     "--bodhi-akasa-sparsa"⟩),
   ("svasa", ⟨"śvāsa", "श्वास", "Breath — just enough room to exist separately",
     "Default micro-spacing", "0.5rem", "--bodhi-akasa-svasa"⟩),
   ("vicara", ⟨"vicāra", "विचार", "Contemplation — space inviting the mind to process",
     "At checkout: supports decision quality", "1rem", "--bodhi-akasa-vicara"⟩),
   ("vistara", ⟨"vistāra", "विस्तार", "Expanse — deliberate openness for decision to form",
     "After urgency cues: counteracts M1", "2rem", "--bodhi-akasa-vistara"⟩)]

/-- `communicativeTokens` of `poetic-tokens.js` (Varṇa). -/
def communicativeTokens : List (String × TokenDef) :=
  [("ahvana", ⟨"āhvāna", "आह्वान", "Invitation — invites action without demanding it",
     "On cancel: potential M7 (if asymmetric with confirm)",
     "var(--bodhi-varna-primary)", "--bodhi-varna-ahvana"⟩),
   ("raksa", ⟨"rakṣā", "रक्षा", "Protection — warns, guards, prevents",
     "On irreversible actions: appropriate", "var(--bodhi-varna-danger)",
     "--bodhi-varna-raksa"⟩),
   ("sthiti", ⟨"sthiti", "स्थिति", "Steadiness — grounds, stabilizes, recedes",
     "Default surface color", "var(--bodhi-varna-surface)",
     "--bodhi-varna-sthiti"⟩),
   ("ullasa", ⟨"ullāsa", "उल्लास", "Delight — celebrates, rewards, affirms",
     "Post-action confirmation", "var(--bodhi-varna-success)",
     "--bodhi-varna-ullasa"⟩)]

/-- `voiceTokens` of `poetic-tokens.js` (Lipi). -/
def voiceTokens : List (String × TokenDef) :=
  [("japa", ⟨"japa", "जप", "Murmur — fine print, supporting detail",
     "Marketing text + japa for terms: potential M4", "0.75rem",
     "--bodhi-lipi-japa"⟩),
   ("katha", ⟨"kathā", "कथा", "Storytelling — body text, natural voice",
     "Default content voice", "1rem", "--bodhi-lipi-katha"⟩),
   ("ghosana", ⟨"ghoṣaṇā", "घोषणा", "Proclamation — headings, carrying voice",
     "Terms text + ghoṣaṇā for marketing: reversed M4", "1.5rem",
     "--bodhi-lipi-ghosana"⟩)]

/-- `ALL_TOKENS = { ...spatialTokens, ...communicativeTokens,
...voiceTokens }`.  The three key sets are pairwise disjoint, so the
spread is a plain concatenation. -/
def ALL_TOKENS : List (String × TokenDef) :=
  spatialTokens ++ communicativeTokens ++ voiceTokens

/-- The error text `resolveToken` throws for an unknown token. -/
def unknownTokenError (tokenName : String) : String :=
  "Unknown Bodhi token: \"" ++ tokenName ++ "\". Available tokens: "
    ++ String.intercalate ", " (ALL_TOKENS.map (fun p => p.1))

/-- `resolveToken` of `poetic-tokens.js`.  `brandOverrides` is the
override object, `none` standing for an absent (`undefined`) property, so
`brandOverrides[tokenName] !== undefined` is `≠ none`; the thrown `Error`
is an `Except.error`. -/
def resolveToken (tokenName : String)
    (brandOverrides : String → Option String) : Except String String :=
  match List.lookup tokenName ALL_TOKENS with
  | none => .error (unknownTokenError tokenName)
  | some token =>
    match brandOverrides tokenName with
    | some v => .ok v
    | none => .ok token.defaultValue

/-- `getAllTokens` of `poetic-tokens.js` (a fresh shallow copy of the
table). -/
def getAllTokens : List (String × TokenDef) := ALL_TOKENS

/-- `SPATIAL_TOKEN_NAMES = Object.keys(spatialTokens)`. -/
def SPATIAL_TOKEN_NAMES : List String := spatialTokens.map (fun p => p.1)

/-- `VOICE_TOKEN_NAMES = Object.keys(voiceTokens)`. -/
def VOICE_TOKEN_NAMES : List String := voiceTokens.map (fun p => p.1)

/-- The warning for an unknown top-level key. -/
def unknownKeyWarning (key : String) : String :=
  "Unknown top-level key: \"" ++ key ++ "\" — will be ignored."

/-- The warning for an unrecognised `lipi.scale` key. -/
def unknownVoiceWarning (key : String) : String :=
  "lipi.scale key \"" ++ key ++ "\" is not a recognized voice token. "
    ++ "Known voices: " ++ String.intercalate ", " VOICE_TOKEN_NAMES

/-- The warning for an unrecognised `akasa` key. -/
def unknownSpatialWarning (key : String) : String :=
  "akasa key \"" ++ key ++ "\" is not a recognized spatial token. "
    ++ "Known spatial tokens: " ++ String.intercalate ", " SPATIAL_TOKEN_NAMES

/-- `rupa[cat]` is falsy: the property is absent or a falsy value. -/
def categoryMissing (o : JObj) (cat : String) : Bool :=
  match lookupJ o cat with
  | none => true
  | some v => ¬jsTruthy v

/-- `rupa[k] && typeof rupa[k] === 'object'`: the guard the source uses
before walking a category object (objects are truthy, so this is jobj
membership). -/
def truthyObject : Option JVal → Option JObj
  | some (.jobj o) => some o
  | _ => none

/-- `validateRupa` of `rupa-validator.js`.  Errors and warnings are
returned in push order: errors — missing required categories, then varna
colour errors, then varna.dark colour errors; warnings — unknown top-level
keys, missing optional categories, unrecognised `lipi.scale` keys,
unrecognised `akasa` keys.  A non-object input short-circuits. -/
def validateRupa : JVal → ValidationResult
  | .jobj o =>
    let allKnown := ALL_CATEGORIES ++ METADATA_FIELDS
    let unknownKeyWarnings :=
      (keysJ o).filterMap (fun k =>
        if k ∈ allKnown then none else some (unknownKeyWarning k))
    let requiredErrors :=
      REQUIRED_CATEGORIES.filterMap (fun cat =>
        if categoryMissing o cat then some (missingCategoryError cat) else none)
    let optionalWarnings :=
      OPTIONAL_CATEGORIES.filterMap (fun cat =>
        if categoryMissing o cat then some (missingOptionalWarning cat) else none)
    let varnaErrors :=
      match truthyObject (lookupJ o "varna") with
      | some varna =>
        validateColorValues varna "varna"
          ++ (match truthyObject (lookupJ varna "dark") with
              | some dark => validateColorValues dark "varna.dark"
              | none => [])
      | none => []
    let voiceWarnings :=
      match truthyObject (lookupJ o "lipi") with
      | some lipi =>
        match truthyObject (lookupJ lipi "scale") with
        | some scale =>
          (keysJ scale).filterMap (fun k =>
            if k ∈ VOICE_TOKEN_NAMES then none else some (unknownVoiceWarning k))
        | none => []
      | none => []
    let spatialWarnings :=
      match truthyObject (lookupJ o "akasa") with
      | some akasa =>
        (keysJ akasa).filterMap (fun k =>
          if k ∈ SPATIAL_TOKEN_NAMES then none else some (unknownSpatialWarning k))
      | none => []
    let errors := requiredErrors ++ varnaErrors
    let warnings :=
      unknownKeyWarnings ++ optionalWarnings ++ voiceWarnings ++ spatialWarnings
    ⟨errors.isEmpty, errors, warnings⟩
  | _ => ⟨false, ["Rūpa file must be a JSON object."], []⟩

/-! ### CLI compiler (`packages/cli/src/commands/token.js`) -/

/-- `c.repeat(n)`. -/
def repChar (c : Char) (n : ℕ) : String := String.mk (List.replicate n c)

/-- Join with `\n` — `Array.prototype.join('\n')`. -/
def joinNL : List String → String
  | [] => ""
  | [a] => a
  | a :: rest => a ++ "\n" ++ joinNL rest

/-- One `SECTION_META` record. -/
structure SectionMeta where
  sanskrit : String
  devanagari : String
  english : String
  description : String

/-- `SECTION_META` of `token.js`. -/
def SECTION_META : List (String × SectionMeta) :=
  [("varna", ⟨"Varṇa", "वर्ण", "Color", "Semantic color roles, not hue names."⟩),
   ("lipi", ⟨"Lipi", "लिपि", "Typography", "Typeface families, scale, weight, and leading."⟩),
   ("akasa", ⟨"Ākāśa", "आकाश", "Spacing", "Spatial intent — how much breathing room an element needs."⟩),
   ("pramana", ⟨"Pramāṇa", "प्रमाण", "Sizing", "Widths, heights, and region dimensions."⟩),
   ("sima", ⟨"Sīmā", "सीमा", "Borders", "Border widths, radii, and focus rings."⟩),
   ("chaya", ⟨"Chāyā", "छाया", "Shadows", "Elevation and depth scale."⟩),
   ("pratima", ⟨"Pratimā", "प्रतिमा", "Icons", "Icon set, sizes, and alignment."⟩),
   ("calana", ⟨"Calana", "चलन", "Motion", "Duration and easing curves."⟩),
   ("ghanatva", ⟨"Ghanatva", "घनत्व", "Density", "Compact, comfortable, and spacious modes."⟩),
   ("yukti", ⟨"Yukti", "युक्ति", "Special Treatments", "Per-Yantra treatments and effects."⟩),
   ("nirmana", ⟨"Nirmāṇa", "निर्माण", "Structural Defaults",
     "Default appearance for Aṅga and Maṇḍala components.\nOverride per-brand by changing which tokens are referenced."⟩)]

/-- One `NIRMANA_LABELS` record (`devanagari` is `null` for `card`). -/
structure NirmanaLabel where
  sanskrit : String
  devanagari : Option String
  english : String

/-- `NIRMANA_LABELS` of `token.js`. -/
def NIRMANA_LABELS : List (String × NirmanaLabel) :=
  [("siras", ⟨"Śiras", some "शिरस्", "Header"⟩),
   ("pada", ⟨"Pāda", some "पाद", "Footer"⟩),
   ("garbha", ⟨"Garbha", some "गर्भ", "Body"⟩),
   ("bindu", ⟨"Bindu", some "बिन्दु", "Single Focus"⟩),
   ("sangraha", ⟨"Saṅgraha", some "सङ्ग्रह", "Collection"⟩),
   ("paricaya", ⟨"Paricaya", some "परिचय", "Profile"⟩),
   ("card", ⟨"Card", none, "Reusable container"⟩)]

/-- `DEFAULTS` of `token.js`, as JSON objects. -/
def DEFAULTS : List (String × JObj) :=
  [("pramana", .cons "content-width" (.jstr "65ch") (.cons "sidebar-width"
     (.jstr "16rem") (.cons "header-height" (.jstr "3.5rem") .nil))),
   ("sima", .cons "width-thin" (.jstr "1px") (.cons "width-medium" (.jstr "2px")
     (.cons "radius-md" (.jstr "0.5rem")
       (.cons "focus-ring" (.jstr "2px solid currentColor") .nil)))),
   ("chaya", .cons "sm" (.jstr "0 1px 2px 0 rgba(0, 0, 0, 0.05)")
     (.cons "md" (.jstr "0 4px 6px -1px rgba(0, 0, 0, 0.1)")
       (.cons "lg" (.jstr "0 10px 15px -3px rgba(0, 0, 0, 0.1)") .nil))),
   ("pratima", .nil),
   ("calana", .cons "duration-normal" (.jstr "200ms")
     (.cons "easing-default" (.jstr "cubic-bezier(0.4, 0, 0.2, 1)") .nil)),
   ("ghanatva", .nil),
   ("yukti", .nil)]

/-- `flattenTokens` of `token.js`: flat `propName → String(value)` pairs in
assignment order, skipping `$`-prefixed, `name`, `version` and `dark`
keys. -/
def flattenTokens : JObj → String → List (String × String)
  | .nil, _ => []
  | .cons k v rest, prefixStr =>
    (if jsStartsWith k "$" ∨ k = "name" ∨ k = "version" ∨ k = "dark" then []
     else
       let propName := prefixStr ++ "-" ++ k
       match v with
       | .jobj o => flattenTokens o propName
       | _ => [(propName, jvalToString v)]) ++ flattenTokens rest prefixStr

/-- `sectionHeader` of `token.js`. -/
def sectionHeader (category : String) : String :=
  match List.lookup category SECTION_META with
  | none => ""
  | some meta =>
    let rule := repChar '═' 56
    joinNL ["/* " ++ rule,
            " * " ++ meta.sanskrit ++ " (" ++ meta.devanagari ++ ") — " ++ meta.english,
            " * " ++ meta.description,
            " * " ++ rule ++ " */"]

/-- `subSectionHeader` of `token.js`: `rule.slice(title.length + 4)` keeps
`45 - (title.length + 4)` dashes (none when the title is long). -/
def subSectionHeader (title : String) : String :=
  "/* ── " ++ title ++ " " ++ repChar '─' ((45 - (title.length + 4) : ℤ)).toNat ++ " */"

/-- `poeticComment` of `token.js`. -/
def poeticComment (token : TokenDef) : String :=
  "/* " ++ token.sanskrit ++ " (" ++ token.devanagari ++ ") — " ++ token.intent ++ " */"

/-- `cssLine` of `token.js`. -/
def cssLine (prop value : String) : String :=
  ":root \x7b " ++ prop ++ ": " ++ value ++ "; \x7d"

/-- JS object assignment `m[k] = v`: overwrite in place, else append. -/
def jsSet : List (String × String) → String → String → List (String × String)
  | [], k, v => [(k, v)]
  | (k0, v0) :: rest, k, v =>
    if k0 = k then (k0, v) :: rest else (k0, v0) :: jsSet rest k v

/-- Try `/var\(--bodhi-varna-(\w+)\)/` at the head of `l`; maximal-munch
`\w+` with a `)` check is complete here, since any shorter run of word
characters is followed by a word character, never by `)`. -/
def matchVarnaRefAt (l : List Char) : Option String :=
  let pre := "var(--bodhi-varna-".toList
  if pre.isPrefixOf l then
    let rest := l.drop pre.length
    let key := rest.takeWhile isWordChar
    if key ≠ [] ∧ (rest.drop key.length).head? = some ')' then
      some (String.mk key)
    else none
  else none

/-- The unanchored search `value.match(/var\(--bodhi-varna-(\w+)\)/)?.[1]`
used by `buildColorMap`/`buildDarkColorMap`. -/
def searchVarnaRef : List Char → Option String
  | [] => none
  | l@(_ :: rest) =>
    match matchVarnaRefAt l with
    | some k => some k
    | none => searchVarnaRef rest

/-- Try `/var\(--bodhi-varna-(\w+(?:-\w+)?)\)/` at the head of `l` (the
variant of `resolveVarToHex`, allowing one hyphenated segment). -/
def matchVarnaRef2At (l : List Char) : Option String :=
  let pre := "var(--bodhi-varna-".toList
  if pre.isPrefixOf l then
    let rest := l.drop pre.length
    let w1 := rest.takeWhile isWordChar
    if w1 = [] then none
    else
      let rest1 := rest.drop w1.length
      if rest1.head? = some ')' then some (String.mk w1)
      else if rest1.head? = some '-' then
        let w2 := (rest1.drop 1).takeWhile isWordChar
        if w2 ≠ [] ∧ ((rest1.drop 1).drop w2.length).head? = some ')' then
          some (String.mk w1 ++ "-" ++ String.mk w2)
        else none
      else none
  else none

/-- The unanchored search of `resolveVarToHex`'s regex. -/
def searchVarnaRef2 : List Char → Option String
  | [] => none
  | l@(_ :: rest) =>
    match matchVarnaRef2At l with
    | some k => some k
    | none => searchVarnaRef2 rest

/-- `resolveVarToHex` of `token.js` on a JSON property value.  `null` is
`none`; a falsy or non-string input, a non-matching string, and a missing
or falsy `colorMap[key]` all yield `null`. -/
def resolveVarToHex (varString : JVal) (colorMap : List (String × String)) :
    Option String :=
  match varString with
  | .jstr s =>
    if s = "" then none
    else if jsStartsWith s "#" then some s
    else
      match searchVarnaRef2 s.toList with
      | some key =>
        match List.lookup key colorMap with
        | some hex => if hex = "" then none else some hex
        | none => none
      | none => none
  | _ => none

/-- `rupa.varna || {}`-style access used throughout the emitter: the
category object when present (a truthy non-object never carries entries
the claims exercise). -/
def objOrEmpty (v : Option JVal) : JObj :=
  match v with
  | some (.jobj o) => o
  | _ => .nil

/-- `buildColorMap` of `token.js`: base varna hex entries (skipping
`dark`), then communicative tokens whose `var(--bodhi-varna-…)` default
dereferences to an already-present entry. -/
def buildColorMap (rupa : JObj) : List (String × String) :=
  let base :=
    match lookupJ rupa "varna" with
    | some (.jobj varna) =>
      (entriesJ varna).foldl (fun m kv =>
        match kv with
        | (k, v) =>
          if k = "dark" then m
          else match v with
            | .jstr s => if jsStartsWith s "#" then jsSet m k s else m
            | _ => m) []
    | _ => []
  communicativeTokens.foldl (fun m nt =>
    let value := nt.2.defaultValue
    if jsStartsWith value "var(--bodhi-varna-" then
      match searchVarnaRef value.toList with
      | some varnaKey =>
        match List.lookup varnaKey m with
        | some hex => if hex ≠ "" then jsSet m nt.1 hex else m
        | none => m
      | none => m
    else m) base

/-- `buildDarkColorMap` of `token.js`. -/
def buildDarkColorMap (rupa : JObj) : List (String × String) :=
  let base :=
    match lookupJ rupa "varna" with
    | some (.jobj varna) =>
      match lookupJ varna "dark" with
      | some (.jobj dark) =>
        (entriesJ dark).foldl (fun m kv =>
          match kv with
          | (k, v) =>
            match v with
            | .jstr s => if jsStartsWith s "#" then jsSet m k s else m
            | _ => m) []
      | _ => []
    | _ => []
  communicativeTokens.foldl (fun m nt =>
    let value := nt.2.defaultValue
    if jsStartsWith value "var(--bodhi-varna-" then
      match searchVarnaRef value.toList with
      | some varnaKey =>
        match List.lookup varnaKey m with
        | some hex => if hex ≠ "" then jsSet m nt.1 hex else m
        | none => m
      | none => m
    else m) base

/-- `TEXT_ROLES` of `token.js`: `(name, source)` pairs. -/
def TEXT_ROLES : List (String × String) :=
  [("foreground", "foreground"), ("muted", "muted"), ("link", "ahvana")]

/-- A `ContrastAdjustment` record.  The ratio fields are JS numbers that
could in principle be NaN, hence `Option ℝ`. -/
structure ContrastAdjustment where
  component : String
  role : String
  srcRole : String
  bgHex : String
  originalHex : String
  adjustedHex : String
  originalRatio : Option ℝ
  newRatio : Option ℝ

/-- `r < t` on a possibly-NaN number: false for NaN, as in JS. -/
def jsLt (r : Option ℝ) (t : ℝ) : Prop := ∃ x, r = some x ∧ x < t

open Classical in
/-- The `componentData.color` check of `generateContrastAdjustments`: at
most one record, emitted when the explicit colour resolves, its ratio is
below 7, and adjustment returns a distinct colour. -/
noncomputable def colorPropAdjustment (componentKey : String)
    (componentData : JObj) (bgHex : String)
    (colorMap : List (String × String)) : List ContrastAdjustment :=
  match lookupJ componentData "color" with
  | some colorVal =>
    if jsTruthy colorVal then
      match resolveVarToHex colorVal colorMap with
      | some colorHex =>
        let ratio := contrastRatio colorHex bgHex
        if jsLt ratio 7 then
          match adjustForContrast colorHex bgHex 7 with
          | some adjustedHex =>
            if adjustedHex ≠ colorHex then
              [⟨componentKey, "", "color", bgHex, colorHex, adjustedHex,
                ratio, contrastRatio adjustedHex bgHex⟩]
            else []
          | none => []
        else []
      | none => []
    else []
  | none => []

open Classical in
/-- One `TEXT_ROLES` iteration of `generateContrastAdjustments`:
skipped when an explicit `color-<role>` override is present, the role is
absent from the colour map, the contrast already suffices, or adjustment
fails or is the identity. -/
noncomputable def roleAdjustment (componentKey : String) (componentData : JObj)
    (bgHex : String) (colorMap : List (String × String))
    (role : String × String) : List ContrastAdjustment :=
  let overrideKey := "color-" ++ role.1
  if (match lookupJ componentData overrideKey with
      | some v => jsTruthy v
      | none => false) then []
  else
    match List.lookup role.2 colorMap with
    | some textHex =>
      if textHex = "" then []
      else
        let ratio := contrastRatio textHex bgHex
        if jsLt ratio 7 then
          match adjustForContrast textHex bgHex 7 with
          | some adjustedHex =>
            if adjustedHex ≠ textHex then
              [⟨componentKey, role.1, role.2, bgHex, textHex, adjustedHex,
                ratio, contrastRatio adjustedHex bgHex⟩]
            else []
          | none => []
        else []
    | none => []

/-- `generateContrastAdjustments` of `token.js`: walk the `nirmana`
components in order; for each object entry with a resolvable truthy `bg`,
collect the explicit-colour record and then one per text role. -/
noncomputable def generateContrastAdjustments (rupa : JObj)
    (colorMap : List (String × String)) : List ContrastAdjustment :=
  let nirmana := objOrEmpty (lookupJ rupa "nirmana")
  (entriesJ nirmana).flatMap (fun kv =>
    match kv with
    | (componentKey, componentVal) =>
      match componentVal with
      | .jobj componentData =>
        match lookupJ componentData "bg" with
        | some bgVal =>
          if jsTruthy bgVal then
            match resolveVarToHex bgVal colorMap with
            | some bgHex =>
              colorPropAdjustment componentKey componentData bgHex colorMap
                ++ (TEXT_ROLES.flatMap
                    (roleAdjustment componentKey componentData bgHex colorMap))
            | none => []
          else []
        | none => []
      | _ => [])

/-- JS `x.toFixed(1)` (ties round to the larger value, i.e. `⌊10x+1/2⌋`;
`NaN.toFixed(1)` is `"NaN"`; negative ratios do not occur, so `-0.0` is
not modelled). -/
noncomputable def jsToFixed1 (x : Option ℝ) : String :=
  match x with
  | none => "NaN"
  | some v =>
    let n : ℤ := ⌊10 * v + 1/2⌋
    if n < 0 then "-" ++ toString ((-n) / 10) ++ "." ++ toString ((-n) % 10)
    else toString (n / 10) ++ "." ++ toString (n % 10)

/-- The `byComponent` grouping of `generateContrastAdjustmentCSS`:
first-encounter component order, records kept in list order. -/
def addToGroup (groups : List (String × List ContrastAdjustment))
    (adj : ContrastAdjustment) : List (String × List ContrastAdjustment) :=
  match groups with
  | [] => [(adj.component, [adj])]
  | (k, l) :: rest =>
    if k = adj.component then (k, l ++ [adj]) :: rest
    else (k, l) :: addToGroup rest adj

/-- `groupBy component` as the source's loop over a plain object builds
it. -/
def groupByComponent (l : List ContrastAdjustment) :
    List (String × List ContrastAdjustment) :=
  l.foldl addToGroup []

/-- The adjusted token name: `--bodhi-nirmana-<comp>-color[-<role>]`
(role suffix only when the role string is truthy). -/
def adjustedTokenName (adj : ContrastAdjustment) : String :=
  if adj.role ≠ "" then
    "--bodhi-nirmana-" ++ adj.component ++ "-color-" ++ adj.role
  else "--bodhi-nirmana-" ++ adj.component ++ "-color"

/-- The component display name `Label (key)` or the bare key. -/
def nirmanaDisplayName (componentKey : String) : String :=
  match List.lookup componentKey NIRMANA_LABELS with
  | some label => label.sanskrit ++ " (" ++ componentKey ++ ")"
  | none => componentKey

/-- `generateContrastAdjustmentCSS` of `token.js`: `(lines, count)`.  (Its
`isDarkMode` parameter is unused by the source body and omitted.) -/
noncomputable def generateContrastAdjustmentCSS
    (adjustments : List ContrastAdjustment) : List String × ℕ :=
  if adjustments.isEmpty then ([], 0)
  else
    let header :=
      ["", "/* ── Nirmāṇa: Contrast-Adjusted Colors ─────── */",
       "/* Auto-calculated for AAA compliance (7:1 minimum) */", ""]
    let body := (groupByComponent adjustments).flatMap (fun g =>
      match g with
      | (componentKey, compAdjustments) =>
        let bgHex := ((compAdjustments.head?).map (fun a => a.bgHex)).getD ""
        ("/* " ++ nirmanaDisplayName componentKey ++ " on " ++ bgHex ++ " */")
          :: ":root \x7b"
          :: (compAdjustments.flatMap (fun adj =>
              ["  /* adjusted from " ++ adj.originalHex ++ " (was "
                 ++ jsToFixed1 adj.originalRatio ++ ":1 → now "
                 ++ jsToFixed1 adj.newRatio ++ ":1) */",
               "  " ++ adjustedTokenName adj ++ ": " ++ adj.adjustedHex ++ ";"])
          ++ ["\x7d", ""]))
    (header ++ body, adjustments.length)

/-- `Object.keys(v).length` as the source's count lines use it (object
case; other truthy values never carry keys the claims exercise). -/
def keysOf (v : JVal) : List String :=
  match v with
  | .jobj o => keysJ o
  | _ => []

/-- `rupa.name || 'unnamed'`. -/
def brandName (rupa : JObj) : String :=
  match lookupJ rupa "name" with
  | some v => if jsTruthy v then jvalToString v else "unnamed"
  | none => "unnamed"

/-- `rupa.version || '0.0.0'`. -/
def brandVersion (rupa : JObj) : String :=
  match lookupJ rupa "version" with
  | some v => if jsTruthy v then jvalToString v else "0.0.0"
  | none => "0.0.0"

/-- `generateFileHeader` of `token.js`.  The formatted wall-clock string
(the one impure input of the generator) is the `timestamp` parameter. -/
def generateFileHeader (rupa : JObj) (timestamp : String) : String :=
  joinNL ["/**",
          " * Bodhi Design Tokens",
          " * Brand: " ++ brandName rupa ++ " v" ++ brandVersion rupa,
          " * Generated: " ++ timestamp,
          " *",
          " * बोधि — Awakening for the web.",
          " * Do not edit directly. Modify your .rupa.json and recompile.",
          " */"]

/-- `generateVarnaSection` of `token.js`: `(lines, count)`. -/
def generateVarnaSection (rupa : JObj) : List String × ℕ :=
  let varna := objOrEmpty (lookupJ rupa "varna")
  let baseColors := (entriesJ varna).filterMap (fun kv =>
    match kv with
    | (k, .jstr s) => if k = "dark" then none else some (k, s)
    | _ => none)
  let lines := "" :: sectionHeader "varna" :: ""
    :: (if baseColors.isEmpty then []
        else ":root \x7b"
          :: baseColors.map (fun kv => "  --bodhi-varna-" ++ kv.1 ++ ": " ++ kv.2 ++ ";")
          ++ ["\x7d"])
    ++ ["", subSectionHeader "Varṇa: Communicative Acts"]
    ++ communicativeTokens.flatMap (fun nt =>
        [poeticComment nt.2, cssLine nt.2.cssProperty nt.2.defaultValue])
  (lines, baseColors.length + communicativeTokens.length)

/-- One simple `:root` block over an object's entries, used by the lipi
family/weight/leading sub-blocks. -/
def lipiBlock (sub : String) (o : JObj) : List String :=
  ":root \x7b"
    :: (entriesJ o).map (fun kv =>
        "  --bodhi-lipi-" ++ sub ++ "-" ++ kv.1 ++ ": " ++ jvalToString kv.2 ++ ";")
    ++ ["\x7d"]

/-- `generateLipiSection` of `token.js`: `(lines, count)`. -/
def generateLipiSection (rupa : JObj) : List String × ℕ :=
  let lipi := objOrEmpty (lookupJ rupa "lipi")
  let familyLines := match truthyObject (lookupJ lipi "family") with
    | some o => lipiBlock "family" o
    | none => []
  let weightLines := match truthyObject (lookupJ lipi "weight") with
    | some o => "" :: lipiBlock "weight" o
    | none => []
  let leadingLines := match truthyObject (lookupJ lipi "leading") with
    | some o => "" :: lipiBlock "leading" o
    | none => []
  let scaleLookup := fun name =>
    match lookupJ lipi "scale" with
    | some (.jobj s) => lookupJ s name
    | _ => none
  let voiceLines := voiceTokens.flatMap (fun nt =>
    let value := match scaleLookup nt.1 with
      | some v => if jsTruthy v then jvalToString v else nt.2.defaultValue
      | none => nt.2.defaultValue
    [poeticComment nt.2, cssLine nt.2.cssProperty value])
  let lines := "" :: sectionHeader "lipi" :: ""
    :: familyLines ++ weightLines ++ leadingLines
    ++ ["", subSectionHeader "Lipi: Voices"] ++ voiceLines
  let subCount := fun key =>
    match lookupJ lipi key with
    | some v => if jsTruthy v then (keysOf v).length else 0
    | none => 0
  (lines, voiceTokens.length + subCount "family" + subCount "weight" + subCount "leading")

/-- `generateAkasaSection` of `token.js`: each spatial token resolves to
the brand's `akasa[name]` when truthy (`brandValue || defaultValue`), else
the registry default. -/
def generateAkasaSection (rupa : JObj) : List String × ℕ :=
  let akasa := objOrEmpty (lookupJ rupa "akasa")
  let lines := "" :: sectionHeader "akasa" :: ""
    :: subSectionHeader "Ākāśa: Spatial Intent"
    :: spatialTokens.flatMap (fun nt =>
        let value := match lookupJ akasa nt.1 with
          | some v => if jsTruthy v then jvalToString v else nt.2.defaultValue
          | none => nt.2.defaultValue
        [poeticComment nt.2, cssLine nt.2.cssProperty value])
  (lines, spatialTokens.length)

/-- `generateGenericSection` of `token.js`. -/
def generateGenericSection (category : String) (data : JObj) : List String × ℕ :=
  let tokens := flattenTokens data ("--bodhi-" ++ category)
  let lines := "" :: sectionHeader category :: ""
    :: (if tokens.isEmpty then []
        else ":root \x7b"
          :: tokens.map (fun kv => "  " ++ kv.1 ++ ": " ++ kv.2 ++ ";")
          ++ ["\x7d"])
  (lines, tokens.length)

/-- The per-component comment line of `generateNirmanaSection`. -/
def nirmanaHeaderLine (componentKey : String) : String :=
  match List.lookup componentKey NIRMANA_LABELS with
  | some label =>
    let devanagariPart := match label.devanagari with
      | some d => " (" ++ d ++ ")"
      | none => ""
    let devLen : ℤ := match label.devanagari with
      | some d => (d.length : ℤ) + 3
      | none => 0
    let pad := ((45 : ℤ) - label.sanskrit.length - devLen - label.english.length - 7).toNat
    "  /* ── " ++ label.sanskrit ++ devanagariPart ++ " — " ++ label.english
      ++ " " ++ repChar '─' pad ++ " */"
  | none =>
    "  /* ── " ++ componentKey ++ " "
      ++ repChar '─' (((45 : ℤ) - componentKey.length - 4).toNat) ++ " */"

/-- The component loop of `generateNirmanaSection`: lines and emitted
property count, with a blank line between components (none after the
last). -/
def nirmanaCompLines (adjustedProps : List String) :
    List (String × JVal) → List String × ℕ
  | [] => ([], 0)
  | (key, v) :: rest =>
    let propLines := match v with
      | .jobj data => (entriesJ data).filterMap (fun kv =>
          if (key ++ "-" ++ kv.1) ∈ adjustedProps then none
          else some ("  --bodhi-nirmana-" ++ key ++ "-" ++ kv.1 ++ ": "
            ++ jvalToString kv.2 ++ ";"))
      | _ => []
    let restResult := nirmanaCompLines adjustedProps rest
    (nirmanaHeaderLine key :: propLines
       ++ (if rest.isEmpty then [] else [""]) ++ restResult.1,
     propLines.length + restResult.2)

/-- `generateNirmanaSection` of `token.js`: skips each `<comp>-color`
property that a base-colour (roleless) adjustment will re-emit. -/
def generateNirmanaSection (rupa : JObj)
    (adjustments : List ContrastAdjustment) : List String × ℕ :=
  let nirmana := objOrEmpty (lookupJ rupa "nirmana")
  let adjustedProps := adjustments.filterMap (fun adj =>
    if adj.role = "" then some (adj.component ++ "-color") else none)
  let comps := nirmanaCompLines adjustedProps (entriesJ nirmana)
  ("" :: sectionHeader "nirmana" :: "" :: ":root \x7b" :: comps.1 ++ ["\x7d"],
   comps.2)

/-- `rupa.varna?.dark`. -/
def varnaDarkVal (rupa : JObj) : Option JVal :=
  match lookupJ rupa "varna" with
  | some (.jobj varna) => lookupJ varna "dark"
  | _ => none

/-- `generateDarkMode` of `token.js`. -/
def generateDarkMode (rupa : JObj) : List String × ℕ :=
  match varnaDarkVal rupa with
  | some (.jobj dark) =>
    if (keysJ dark).isEmpty then ([], 0)
    else
      let entries := entriesJ dark
      ("" :: subSectionHeader "Varṇa: Dark Mode" :: ""
         :: "@media (prefers-color-scheme: dark) \x7b" :: "  :root \x7b"
         :: entries.map (fun kv =>
             "    --bodhi-varna-" ++ kv.1 ++ ": " ++ jvalToString kv.2 ++ ";")
         ++ ["  \x7d", "\x7d"],
       entries.length)
  | _ => ([], 0)

/-- `generateAccessibilityOverrides` of `token.js` — the two fixed,
non-brand-parameterised trailing policy blocks. -/
def generateAccessibilityOverrides : List String :=
  let rule := repChar '═' 56
  ["",
   joinNL ["/* " ++ rule,
           " * Bodhi Enforced — Non-negotiable accessibility",
           " * These cannot be overridden by brand tokens.",
           " * " ++ rule ++ " */"],
   "",
   "@media (prefers-reduced-motion: reduce) \x7b",
   "  :root \x7b",
   "    --bodhi-calana-duration: 0ms;",
   "    --bodhi-calana-easing: linear;",
   "  \x7d",
   "\x7d",
   "",
   "@media (prefers-contrast: more) \x7b",
   "  :root \x7b",
   "    --bodhi-sima-focus-ring: 3px solid currentColor;",
   "  \x7d",
   "\x7d"]

/-- The inline dark-mode contrast-adjustment block of `tokenCompile`
(emitted only when the dark pass produced records). -/
noncomputable def darkAdjustmentLines
    (darkContrastAdjustments : List ContrastAdjustment) : List String :=
  "" :: "/* ── Nirmāṇa: Dark Mode Contrast Adjustments ── */" :: ""
    :: "@media (prefers-color-scheme: dark) \x7b"
    :: (groupByComponent darkContrastAdjustments).flatMap (fun g =>
        match g with
        | (componentKey, compAdjustments) =>
          let bgHex := ((compAdjustments.head?).map (fun a => a.bgHex)).getD ""
          ("  /* " ++ nirmanaDisplayName componentKey ++ " on " ++ bgHex ++ " */")
            :: "  :root \x7b"
            :: (compAdjustments.flatMap (fun adj =>
                ["    /* adjusted from " ++ adj.originalHex ++ " (was "
                   ++ jsToFixed1 adj.originalRatio ++ ":1 → now "
                   ++ jsToFixed1 adj.newRatio ++ ":1) */",
                 "    " ++ adjustedTokenName adj ++ ": " ++ adj.adjustedHex ++ ";"])
            ++ ["  \x7d", ""]))
    ++ ["\x7d"]

/-- The generic-category loop of `tokenCompile`:
`rupa[cat] || DEFAULTS[cat]`, emitted when non-empty. -/
def genericSectionsLines (rupa : JObj) : List String :=
  ["pramana", "sima", "chaya", "pratima", "calana", "ghanatva", "yukti"].flatMap
    (fun cat =>
      let fallback : JVal := .jobj ((List.lookup cat DEFAULTS).getD .nil)
      let data := match lookupJ rupa cat with
        | some v => if jsTruthy v then v else fallback
        | none => fallback
      match data with
      | .jobj o => if (keysJ o).isEmpty then [] else (generateGenericSection cat o).1
      | _ => [])

/-- The nirmana block of `tokenCompile`: structural defaults plus, when
any light-mode adjustment was produced, the adjusted-colour overrides. -/
noncomputable def nirmanaBlockLines (rupa : JObj) : List String :=
  match lookupJ rupa "nirmana" with
  | some (.jobj o) =>
    if (keysJ o).isEmpty then []
    else
      let colorMap := buildColorMap rupa
      let contrastAdjustments := generateContrastAdjustments rupa colorMap
      (generateNirmanaSection rupa contrastAdjustments).1
        ++ (if contrastAdjustments.isEmpty then []
            else (generateContrastAdjustmentCSS contrastAdjustments).1)
  | _ => []

/-- The dark-mode adjustment block of `tokenCompile`, guarded by
`rupa.varna?.dark && rupa.nirmana`. -/
noncomputable def darkBlockLines (rupa : JObj) : List String :=
  let darkTruthy := match varnaDarkVal rupa with
    | some d => jsTruthy d
    | none => false
  let nirmanaTruthy := match lookupJ rupa "nirmana" with
    | some v => jsTruthy v
    | none => false
  if darkTruthy && nirmanaTruthy then
    let darkColorMap := buildDarkColorMap rupa
    let darkContrastAdjustments := generateContrastAdjustments rupa darkColorMap
    if darkContrastAdjustments.isEmpty then []
    else darkAdjustmentLines darkContrastAdjustments
  else []

/-- Every line `tokenCompile` pushes after the file header, in push
order.  Depends on the specification only — no clock input. -/
noncomputable def compileBodyLines (rupa : JObj) : List String :=
  (generateVarnaSection rupa).1
    ++ (if (generateDarkMode rupa).2 > 0 then (generateDarkMode rupa).1 else [])
    ++ (generateLipiSection rupa).1
    ++ (generateAkasaSection rupa).1
    ++ genericSectionsLines rupa
    ++ nirmanaBlockLines rupa
    ++ darkBlockLines rupa
    ++ generateAccessibilityOverrides
    ++ [""]

/-- `allLines` of `tokenCompile`: the file header, then the body. -/
noncomputable def compileLines (rupa : JObj) (timestamp : String) : List String :=
  generateFileHeader rupa timestamp :: compileBodyLines rupa

/-- The pure core of `tokenCompile`: validate, and only on success
generate and join the stylesheet (`process.exit(1)` before any generation
on a failed validation — the `Except.error` carries the error list and no
stylesheet text exists at all).  File and console I/O are the out-of-scope
CLI shell. -/
noncomputable def tokenCompileCore (rupa : JVal) (timestamp : String) :
    Except (List String) String :=
  match rupa with
  | .jobj o =>
    if (validateRupa (.jobj o)).valid then
      .ok (joinNL (compileLines o timestamp))
    else .error (validateRupa (.jobj o)).errors
  | v => .error (validateRupa v).errors

/-! ### Fixtures and spec-side comparison definitions -/

/-- Modelled from the spec's colour grammar for the hex alternative:
«3/4/6/8-digit hex».  Used only to contrast the spec's stated grammar with
the source regex (whose quantifier is `{3,8}`). -/
def specValidHexColor (s : String) : Bool :=
  match s.toList with
  | '#' :: rest =>
    (rest.length = 3 ∨ rest.length = 4 ∨ rest.length = 6 ∨ rest.length = 8)
      ∧ rest.all isHexDigitCI
  | _ => false

/-- A sampled palette of valid 6-digit hex colours. -/
def samplePalette : List String :=
  ["#1a1a1a", "#4b5563", "#ffffff", "#000000", "#2563eb", "#dc2626",
   "#16a34a", "#eab308", "#9ba5b3", "#123456", "#abcdef", "#808080",
   "#ff0000", "#00ff00", "#0000ff", "#f5f5f4"]

/-- Distance between two channel bytes. -/
def chanDist (a b : ℕ) : ℕ := max a b - min a b

/-- `hslToHex (hexToHSL hex)` agrees with `hex` within ±1 per channel. -/
def roundTripWithin1 (hex : String) : Bool :=
  match hexToHSL hex, channels hex with
  | some hsl, some rgb =>
    (match channels (hslToHex hsl.h hsl.s hsl.l) with
     | some rgb2 =>
       decide (chanDist rgb.1 rgb2.1 ≤ 1) && decide (chanDist rgb.2.1 rgb2.2.1 ≤ 1)
         && decide (chanDist rgb.2.2 rgb2.2.2 ≤ 1)
     | none => false)
  | _, _ => false

/-- Everything `generateFileHeader` emits before the timestamp: depends on
the specification only. -/
def cssHeaderPre (rupa : JObj) : String :=
  "/**" ++ "\n" ++ " * Bodhi Design Tokens" ++ "\n" ++ " * Brand: "
    ++ brandName rupa ++ " v" ++ brandVersion rupa ++ "\n" ++ " * Generated: "

/-- Everything the compiler emits after the timestamp: depends on the
specification only. -/
noncomputable def cssAfterTimestamp (rupa : JObj) : String :=
  "\n" ++ " *" ++ "\n" ++ " * बोधि — Awakening for the web." ++ "\n"
    ++ " * Do not edit directly. Modify your .rupa.json and recompile."
    ++ "\n" ++ " */" ++ "\n" ++ joinNL (compileBodyLines rupa)

/-- Scenario C's brand specification: a structural `card` on `#1a1a1a`
with the muted text role resolving to `#4b5563`. -/
def rupaScenarioC : JObj :=
  .cons "varna" (.jobj (.cons "muted" (.jstr "#4b5563") .nil))
    (.cons "nirmana"
      (.jobj (.cons "card" (.jobj (.cons "bg" (.jstr "#1a1a1a") .nil)) .nil))
      .nil)

/-- Scenario A's specification: `lipi` and `akasa` present, `varna`
omitted. -/
def rupaMissingVarna : JObj :=
  .cons "lipi" (.jobj .nil) (.cons "akasa" (.jobj .nil) .nil)

/-- A minimal specification passing validation (all three required
categories present as objects). -/
def rupaValidMinimal : JObj :=
  .cons "varna" (.jobj .nil)
    (.cons "lipi" (.jobj .nil) (.cons "akasa" (.jobj .nil) .nil))

/-! ## Claim theorems -/

set_option allowUnsafeReducibility true
section
attribute [local semireducible] Rat.add Rat.mul Rat.sub Rat.inv

/-- `joinNL` on a cons with a nonempty tail. -/
lemma joinNL_cons (a : String) (l : List String) (h : l ≠ []) :
    joinNL (a :: l) = a ++ "\n" ++ joinNL l := by
  cases l with
  | nil => exact absurd rfl h
  | cons b t => rfl

/-- The body of the stylesheet is never the empty line list. -/
lemma compileBodyLines_ne_nil (rupa : JObj) : compileBodyLines rupa ≠ [] := by
  unfold compileBodyLines
  intro h
  simp at h

/-- C4 counterexample: the claim asserts a brand-supplied falsy value
(such as the empty string) still wins in the emitter's output; in fact
`generateAkasaSection` computes `brandValue || token.defaultValue`, so the
brand's `""` for `sparsa` is discarded and the registry default
`0.125rem` is emitted. -/
theorem emitter_falsy_override_counterexample :
    ((generateAkasaSection
        (.cons "akasa" (.jobj (.cons "sparsa" (.jstr "") .nil)) .nil)).1.contains
      (cssLine "--bodhi-akasa-sparsa" "0.125rem") = true)
    ∧ ((generateAkasaSection
        (.cons "akasa" (.jobj (.cons "sparsa" (.jstr "") .nil)) .nil)).1.contains
      (cssLine "--bodhi-akasa-sparsa" "") = false) := by
  constructor <;> rfl

/-- C4 amended: `resolveToken` honours every defined override, falsy ones
included (its test is `!== undefined`); the emitter instead applies
truthiness for both spatial (`akasa`) and voice (`lipi.scale`) tokens — a
truthy brand value is emitted verbatim, a falsy or absent one falls back
to the registry default. -/
theorem resolver_precedence_amended :
    (∀ tokenName tok brandOverrides v,
      List.lookup tokenName ALL_TOKENS = some tok →
      brandOverrides tokenName = some v →
      resolveToken tokenName brandOverrides = .ok v)
    ∧ (∀ rupa name tok v, (name, tok) ∈ spatialTokens →
        lookupJ (objOrEmpty (lookupJ rupa "akasa")) name = some v →
        (if jsTruthy v then cssLine tok.cssProperty (jvalToString v)
         else cssLine tok.cssProperty tok.defaultValue)
          ∈ (generateAkasaSection rupa).1)
    ∧ (∀ rupa name tok v scale, (name, tok) ∈ voiceTokens →
        lookupJ (objOrEmpty (lookupJ rupa "lipi")) "scale" = some (JVal.jobj scale) →
        lookupJ scale name = some v →
        (if jsTruthy v then cssLine tok.cssProperty (jvalToString v)
         else cssLine tok.cssProperty tok.defaultValue)
          ∈ (generateLipiSection rupa).1) := by
  refine ⟨?_, ?_, ?_⟩
  · intro tokenName tok brandOverrides v hlook hov
    unfold resolveToken
    rw [hlook, hov]
  · intro rupa name tok v hmem hbrand
    unfold generateAkasaSection
    simp only [List.mem_cons, List.mem_append, List.mem_flatMap]
    refine Or.inr (Or.inr (Or.inr (Or.inr ⟨(name, tok), hmem, ?_⟩)))
    rw [hbrand]
    by_cases ht : jsTruthy v
    · simp [ht]
    · simp [ht]
  · intro rupa name tok v scale hmem hscale hbrand
    unfold generateLipiSection
    dsimp only
    apply List.mem_append_right
    rw [List.mem_flatMap]
    refine ⟨(name, tok), hmem, ?_⟩
    rw [hscale]
    dsimp only
    rw [hbrand]
    by_cases ht : jsTruthy v
    · simp [ht]
    · simp [ht]

/-- C4 amended witness: `resolveToken` honours an override of `""`; the
emitter uses a truthy brand value `3rem` for the spatial token `svasa`
and `1.25rem` for the voice token `katha`. -/
theorem resolver_precedence_amended_witness :
    resolveToken "sparsa" (fun n => if n = "sparsa" then some "" else none) = .ok ""
    ∧ (cssLine "--bodhi-akasa-svasa" "3rem")
        ∈ (generateAkasaSection
            (.cons "akasa" (.jobj (.cons "svasa" (.jstr "3rem") .nil)) .nil)).1
    ∧ (cssLine "--bodhi-lipi-katha" "1.25rem")
        ∈ (generateLipiSection
            (.cons "lipi"
              (.jobj (.cons "scale" (.jobj (.cons "katha" (.jstr "1.25rem") .nil)) .nil))
              .nil)).1 := by
  refine ⟨?_, ?_, ?_⟩
  · exact resolver_precedence_amended.1 "sparsa" _ _ "" rfl rfl
  · have h := resolver_precedence_amended.2.1
      (.cons "akasa" (.jobj (.cons "svasa" (.jstr "3rem") .nil)) .nil)
      "svasa"
      ⟨"śvāsa", "श्वास", "Breath — just enough room to exist separately",
        "Default micro-spacing", "0.5rem", "--bodhi-akasa-svasa"⟩
      (.jstr "3rem") (by simp [spatialTokens]) rfl
    simpa using h
  · have h := resolver_precedence_amended.2.2
      (.cons "lipi"
        (.jobj (.cons "scale" (.jobj (.cons "katha" (.jstr "1.25rem") .nil)) .nil))
        .nil)
      "katha"
      ⟨"kathā", "कथा", "Storytelling — body text, natural voice",
        "Default content voice", "1rem", "--bodhi-lipi-katha"⟩
      (.jstr "1.25rem") (.cons "katha" (.jstr "1.25rem") .nil)
      (by simp [voiceTokens]) rfl rfl
    simpa using h

/-- C7: over the sampled palette, `hslToHex ∘ hexToHSL` returns each
colour within ±1 per channel (here in fact exactly). -/
theorem hsl_hex_roundtrip_palette :
    samplePalette.all roundTripWithin1 = true := by decide

/-- C3: the code accepts the 5-digit hex `#12345` — `CSS_COLOR_RE`'s hex
quantifier is `{3,8}` — although the grammar stated by the spec and by the
regex's own doc comment (3/4/6/8 digits, as `specValidHexColor` renders
it) excludes it; the validator records no error for such a leaf. -/
theorem five_digit_hex_accepted :
    isValidCSSColor "#12345" = true
    ∧ specValidHexColor "#12345" = false
    ∧ validateColorValues (.cons "accent" (.jstr "#12345") .nil) "varna" = [] := by
  refine ⟨by decide, by decide, by decide⟩

/-- C6: a specification lacking `varna` while `lipi` and `akasa` are
present objects validates to exactly one error, which names `varna`, and
the compile aborts with that error list before any stylesheet text is
produced. -/
theorem missing_color_category_aborts (o : JObj) (ts : String)
    (hvarna : lookupJ o "varna" = none)
    (hlipi : ∃ lo, lookupJ o "lipi" = some (.jobj lo))
    (hakasa : ∃ ao, lookupJ o "akasa" = some (.jobj ao)) :
    (validateRupa (.jobj o)).errors = [missingCategoryError "varna"]
    ∧ tokenCompileCore (.jobj o) ts = .error [missingCategoryError "varna"] := by
  obtain ⟨lo, hl⟩ := hlipi
  obtain ⟨ao, ha⟩ := hakasa
  have herr : (validateRupa (.jobj o)).errors = [missingCategoryError "varna"] := by
    simp [validateRupa, REQUIRED_CATEGORIES, categoryMissing, hvarna, hl, ha,
      truthyObject, jsTruthy]
  refine ⟨herr, ?_⟩
  have hvalid : (validateRupa (.jobj o)).valid = false := by
    simp [validateRupa, REQUIRED_CATEGORIES, categoryMissing, hvarna, hl, ha,
      truthyObject, jsTruthy]
  simp [tokenCompileCore, hvalid, herr]

/-- C6 witness: the concrete Scenario A specification. -/
theorem missing_color_category_aborts_witness :
    (validateRupa (.jobj rupaMissingVarna)).errors = [missingCategoryError "varna"]
    ∧ tokenCompileCore (.jobj rupaMissingVarna) "2026-10-11 00:00:00 UTC"
        = .error [missingCategoryError "varna"] :=
  missing_color_category_aborts rupaMissingVarna "2026-10-11 00:00:00 UTC"
    rfl ⟨.nil, rfl⟩ ⟨.nil, rfl⟩

/-- C9: the compiled stylesheet text decomposes as a timestamp-free
prefix, the timestamp, and a timestamp-free suffix, both determined by the
specification alone — so two compiles of one specification agree
everywhere outside the single timestamped header line. -/
theorem compile_deterministic_modulo_timestamp (o : JObj) (t1 t2 : String)
    (hvalid : (validateRupa (.jobj o)).valid = true) :
    tokenCompileCore (.jobj o) t1 = .ok (cssHeaderPre o ++ t1 ++ cssAfterTimestamp o)
    ∧ tokenCompileCore (.jobj o) t2 = .ok (cssHeaderPre o ++ t2 ++ cssAfterTimestamp o) := by
  have key : ∀ t, joinNL (compileLines o t) = cssHeaderPre o ++ t ++ cssAfterTimestamp o := by
    intro t
    rw [compileLines, joinNL_cons _ _ (compileBodyLines_ne_nil o)]
    rw [generateFileHeader, cssHeaderPre, cssAfterTimestamp]
    simp only [joinNL, String.append_assoc]
  constructor <;> simp [tokenCompileCore, hvalid, key]

/-- C9 witness: the minimal valid specification at two timestamps. -/
theorem compile_deterministic_modulo_timestamp_witness :
    tokenCompileCore (.jobj rupaValidMinimal) "A"
        = .ok (cssHeaderPre rupaValidMinimal ++ "A" ++ cssAfterTimestamp rupaValidMinimal)
    ∧ tokenCompileCore (.jobj rupaValidMinimal) "B"
        = .ok (cssHeaderPre rupaValidMinimal ++ "B" ++ cssAfterTimestamp rupaValidMinimal) :=
  compile_deterministic_modulo_timestamp rupaValidMinimal "A" "B" (by decide)


/-- C2: a successful `adjustForContrast` either returns the foreground
untouched or rebuilds it from the foreground's own hue and saturation —
bit for bit the `h` and `s` of `hexToHSL foreground` — varying only the
lightness argument. -/
theorem adjust_preserves_hue_saturation (fg bg : String) (t : ℝ) (result : String)
    (h : adjustForContrast fg bg t = some result) :
    result = fg ∨ ∃ hsl lightness, hexToHSL fg = some hsl
      ∧ result = hslToHex hsl.h hsl.s lightness := by
  unfold adjustForContrast at h
  split at h
  · exact Or.inl (Option.some.inj h).symm
  · split at h
    case _ hsl bgLum heqHSL heqLum =>
      dsimp only at h
      split at h
      · refine Or.inr ⟨hsl, _, heqHSL, (Option.some.inj h).symm⟩
      · exact absurd h (by simp)
    case _ => exact absurd h (by simp)

/-- `sRGBtoLinear 255 = 1` (the 2.4-power of 1). -/
lemma sRGBtoLinear_255 : sRGBtoLinear ((255 : ℕ) : ℚ) = 1 := by
  rw [sRGBtoLinear]
  rw [if_neg (by norm_num)]
  rw [show ((((255 : ℕ) : ℚ) / 255 : ℚ) : ℝ) = 1 by norm_num]
  rw [show ((1 : ℝ) + 0.055) / 1.055 = 1 by norm_num]
  exact Real.one_rpow _

/-- `sRGBtoLinear 0 = 0` (the low branch). -/
lemma sRGBtoLinear_0 : sRGBtoLinear ((0 : ℕ) : ℚ) = 0 := by
  rw [sRGBtoLinear]
  rw [if_pos (by norm_num)]
  norm_num

/-- White has luminance exactly 1. -/
lemma lum_white : relativeLuminance "#ffffff" = some 1 := by
  rw [relativeLuminance, show channels "#ffffff" = some (255, 255, 255) from by decide]
  dsimp only
  rw [sRGBtoLinear_255]
  norm_num

/-- Black has luminance exactly 0. -/
lemma lum_black : relativeLuminance "#000000" = some 0 := by
  rw [relativeLuminance, show channels "#000000" = some (0, 0, 0) from by decide]
  dsimp only
  rw [sRGBtoLinear_0]
  norm_num

/-- White on black measures exactly 21:1 and meets AAA. -/
lemma meets_white_black : meetsContrast "#ffffff" "#000000" 7 := by
  refine ⟨21, ?_, by norm_num⟩
  rw [contrastRatio, lum_white, lum_black]
  norm_num

/-- White on black is already compliant, so adjustment is the identity. -/
lemma adjust_white_black : adjustForContrast "#ffffff" "#000000" 7 = some "#ffffff" := by
  rw [adjustForContrast, if_pos meets_white_black]

/-- A record produced by the explicit-colour check stores the output of a
successful adjustment against its stored background. -/
lemma mem_colorPropAdjustment {componentKey : String} {componentData : JObj}
    {bgHex : String} {colorMap : List (String × String)} {adj : ContrastAdjustment}
    (h : adj ∈ colorPropAdjustment componentKey componentData bgHex colorMap) :
    adjustForContrast adj.originalHex bgHex 7 = some adj.adjustedHex
      ∧ adj.bgHex = bgHex := by
  unfold colorPropAdjustment at h
  repeat' split at h
  all_goals simp_all

/-- Likewise for a record produced by the text-role loop. -/
lemma mem_roleAdjustment {componentKey : String} {componentData : JObj}
    {bgHex : String} {colorMap : List (String × String)} {role : String × String}
    {adj : ContrastAdjustment}
    (h : adj ∈ roleAdjustment componentKey componentData bgHex colorMap role) :
    adjustForContrast adj.originalHex bgHex 7 = some adj.adjustedHex
      ∧ adj.bgHex = bgHex := by
  unfold roleAdjustment at h
  repeat' split at h
  all_goals simp_all

/-- C1: a non-null `adjustForContrast` result always satisfies
`meetsContrast` against the background at the target — the final re-check
gates every return — and consequently every `ContrastAdjustment` record
the contrast pass emits carries an adjusted colour meeting 7:1 against its
stored background. -/
theorem contrast_adjustment_sound :
    (∀ fg bg (t : ℝ) c, adjustForContrast fg bg t = some c → meetsContrast c bg t)
    ∧ (∀ rupa colorMap adj, adj ∈ generateContrastAdjustments rupa colorMap →
        meetsContrast adj.adjustedHex adj.bgHex 7) := by
  have part1 : ∀ fg bg (t : ℝ) c,
      adjustForContrast fg bg t = some c → meetsContrast c bg t := by
    intro fg bg t c h
    unfold adjustForContrast at h
    split at h
    case isTrue hm => rwa [← Option.some.inj h]
    case isFalse =>
      split at h
      case _ hsl bgLum _ _ =>
        dsimp only at h
        split at h
        case isTrue hm => rwa [← Option.some.inj h]
        case isFalse => exact absurd h (by simp)
      case _ => exact absurd h (by simp)
  refine ⟨part1, ?_⟩
  intro rupa colorMap adj hmem
  unfold generateContrastAdjustments at hmem
  rw [List.mem_flatMap] at hmem
  obtain ⟨⟨componentKey, componentVal⟩, hin, hmem⟩ := hmem
  cases componentVal with
  | jobj componentData =>
    dsimp only at hmem
    cases hbg : lookupJ componentData "bg" with
    | none => rw [hbg] at hmem; simp at hmem
    | some bgVal =>
      rw [hbg] at hmem
      dsimp only at hmem
      by_cases htr : jsTruthy bgVal = true
      · rw [if_pos htr] at hmem
        cases hres : resolveVarToHex bgVal colorMap with
        | none => rw [hres] at hmem; simp at hmem
        | some bgHex =>
          rw [hres] at hmem
          dsimp only at hmem
          rw [List.mem_append] at hmem
          rcases hmem with hc | hr
          · obtain ⟨hadj, hbg2⟩ := mem_colorPropAdjustment hc
            rw [hbg2]
            exact part1 _ _ _ _ hadj
          · rw [List.mem_flatMap] at hr
            obtain ⟨role, _, hr⟩ := hr
            obtain ⟨hadj, hbg2⟩ := mem_roleAdjustment hr
            rw [hbg2]
            exact part1 _ _ _ _ hadj
      · rw [if_neg htr] at hmem; simp at hmem
  | jstr s => simp at hmem
  | jnum q => simp at hmem
  | jbool b => simp at hmem
  | jnull => simp at hmem

/-- C1 witness: white on black is compliant and returned unchanged, so
the soundness theorem yields its contrast property at that input. -/
theorem contrast_adjustment_sound_witness :
    meetsContrast "#ffffff" "#000000" 7 :=
  contrast_adjustment_sound.1 "#ffffff" "#000000" 7 "#ffffff" adjust_white_black

/-- C2 witness: instantiated at white on black, where the adjustment is
the identity. -/
theorem adjust_preserves_hue_saturation_witness :
    "#ffffff" = "#ffffff"
    ∨ ∃ hsl lightness, hexToHSL "#ffffff" = some hsl
        ∧ "#ffffff" = hslToHex hsl.h hsl.s lightness :=
  adjust_preserves_hue_saturation "#ffffff" "#000000" 7 "#ffffff" adjust_white_black

/-- Each hex digit's value is at most 15, whence `getD 0` below 16. -/
lemma hexDigitVal_getD_le (c : Char) : (hexDigitVal c).getD 0 ≤ 15 := by
  unfold hexDigitVal
  repeat' split
  all_goals simp
  all_goals omega

/-- `parseIntHex` of at most two characters stays below 256. -/
lemma parseIntHex_le_255 (l : List Char) (h2 : l.length ≤ 2) (n : ℕ)
    (h : parseIntHex l = some n) : n ≤ 255 := by
  unfold parseIntHex at h
  have hlen : (l.takeWhile (fun c => (hexDigitVal c).isSome)).length ≤ 2 :=
    le_trans (List.takeWhile_sublist _).length_le h2
  set digits := l.takeWhile (fun c => (hexDigitVal c).isSome) with hd
  clear_value digits
  match digits, hlen with
  | [], _ => simp at h
  | [a], _ =>
    simp only [List.foldl] at h
    obtain rfl : 16 * 0 + (hexDigitVal a).getD 0 = n := by simpa using h
    have := hexDigitVal_getD_le a
    omega
  | [a, b], _ =>
    simp only [List.foldl] at h
    obtain rfl : 16 * (16 * 0 + (hexDigitVal a).getD 0) + (hexDigitVal b).getD 0 = n := by
      simpa using h
    have ha := hexDigitVal_getD_le a
    have hb := hexDigitVal_getD_le b
    omega
  | a :: b :: c :: t, hlen => simp at hlen

/-- The three parsed channels are bytes. -/
lemma channels_le_255 {hex : String} {r g b : ℕ}
    (h : channels hex = some (r, g, b)) : r ≤ 255 ∧ g ≤ 255 ∧ b ≤ 255 := by
  unfold channels at h
  dsimp only at h
  split at h
  case _ r0 g0 b0 hr hg hb =>
    obtain ⟨rfl, rfl, rfl⟩ : r0 = r ∧ g0 = g ∧ b0 = b := by
      simpa using h
    exact ⟨parseIntHex_le_255 _ (List.length_take_le _ _) _ hr,
      parseIntHex_le_255 _ (List.length_take_le _ _) _ hg,
      parseIntHex_le_255 _ (List.length_take_le _ _) _ hb⟩
  case _ => simp at h

/-- A linearised channel is nonnegative. -/
lemma sRGBtoLinear_nonneg (q : ℚ) (h0 : 0 ≤ q) : 0 ≤ sRGBtoLinear q := by
  rw [sRGBtoLinear]
  split
  · have : (0 : ℚ) ≤ q / 255 / 12.92 := by positivity
    exact_mod_cast this
  · apply Real.rpow_nonneg
    have : (0 : ℝ) ≤ ((q / 255 : ℚ) : ℝ) := by exact_mod_cast by positivity
    positivity

/-- A linearised byte stays at most 1. -/
lemma sRGBtoLinear_le_one (q : ℚ) (h0 : 0 ≤ q) (h255 : q ≤ 255) :
    sRGBtoLinear q ≤ 1 := by
  rw [sRGBtoLinear]
  split
  case isTrue hc =>
    have : (q / 255 / 12.92 : ℚ) ≤ 1 := by
      rw [div_le_one (by norm_num)]
      nlinarith
    exact_mod_cast this
  case isFalse hc =>
    apply Real.rpow_le_one ?_ ?_ (by norm_num)
    · have : (0 : ℝ) ≤ ((q / 255 : ℚ) : ℝ) := by exact_mod_cast by positivity
      positivity
    · have hq1 : ((q / 255 : ℚ) : ℝ) ≤ 1 := by
        exact_mod_cast show (q / 255 : ℚ) ≤ 1 by
          rw [div_le_one (by norm_num)]; exact h255
      rw [div_le_one (by norm_num)]
      linarith

/-- C8 amended: whenever the three channel slices of a hex colour parse
(as they do for every 3-, 6- and 8-digit hex, though not for a 4-digit
one), the relative luminance exists and lies in the closed unit
interval. -/
theorem relativeLuminance_in_unit_interval (hex : String) (r g b : ℕ)
    (h : channels hex = some (r, g, b)) :
    ∃ L, relativeLuminance hex = some L ∧ 0 ≤ L ∧ L ≤ 1 := by
  obtain ⟨hr, hg, hb⟩ := channels_le_255 h
  have hL : relativeLuminance hex
      = some (0.2126 * sRGBtoLinear r + 0.7152 * sRGBtoLinear g
          + 0.0722 * sRGBtoLinear b) := by
    rw [relativeLuminance, h]
  have hR0 := sRGBtoLinear_nonneg (r : ℚ) (by positivity)
  have hG0 := sRGBtoLinear_nonneg (g : ℚ) (by positivity)
  have hB0 := sRGBtoLinear_nonneg (b : ℚ) (by positivity)
  have hR1 := sRGBtoLinear_le_one (r : ℚ) (by positivity) (by exact_mod_cast hr)
  have hG1 := sRGBtoLinear_le_one (g : ℚ) (by positivity) (by exact_mod_cast hg)
  have hB1 := sRGBtoLinear_le_one (b : ℚ) (by positivity) (by exact_mod_cast hb)
  exact ⟨_, hL, by nlinarith, by nlinarith⟩

/-- C8 witness: white parses and its luminance lies in `[0,1]`. -/
theorem relativeLuminance_in_unit_interval_witness :
    ∃ L, relativeLuminance "#ffffff" = some L ∧ 0 ≤ L ∧ L ≤ 1 :=
  relativeLuminance_in_unit_interval "#ffffff" 255 255 255 (by decide)

/-- C8 counterexample: the 4-digit hex `#abcd` is inside the spec's hex
grammar, yet its blue slice `substr(4,2)` is empty, `parseInt` yields NaN,
and the luminance is NaN (`none`) — not a value in `[0,1]`. -/
theorem four_digit_hex_luminance_nan :
    specValidHexColor "#abcd" = true ∧ relativeLuminance "#abcd" = none := by
  refine ⟨by decide, ?_⟩
  rw [relativeLuminance, show channels "#abcd" = none from by decide]

/-- Rational two-sided bracketing of `y ^ 2.4`: since `(y^2.4)^5 = y^12`
for `y ≥ 0`, a bound `lo ≤ y^2.4 ≤ hi` reduces to the rational facts
`lo^5 ≤ y^12 ≤ hi^5`. -/
lemma rpow24_bounds (y lo hi : ℚ) (hy : 0 ≤ y) (hlo : 0 ≤ lo) (hhi : 0 ≤ hi)
    (h1 : lo ^ (5 : ℕ) ≤ y ^ (12 : ℕ)) (h2 : y ^ (12 : ℕ) ≤ hi ^ (5 : ℕ)) :
    (lo : ℝ) ≤ (y : ℝ) ^ (2.4 : ℝ) ∧ (y : ℝ) ^ (2.4 : ℝ) ≤ (hi : ℝ) := by
  have hyR : (0 : ℝ) ≤ (y : ℝ) := by exact_mod_cast hy
  have hz : (0 : ℝ) ≤ (y : ℝ) ^ (2.4 : ℝ) := Real.rpow_nonneg hyR _
  have key : ((y : ℝ) ^ (2.4 : ℝ)) ^ (5 : ℕ) = (y : ℝ) ^ (12 : ℕ) := by
    rw [← Real.rpow_natCast ((y : ℝ) ^ (2.4 : ℝ)) 5, ← Real.rpow_mul hyR]
    rw [show ((2.4 : ℝ) * ((5 : ℕ) : ℝ)) = ((12 : ℕ) : ℝ) by norm_num]
    exact Real.rpow_natCast _ 12
  constructor
  · apply le_of_pow_le_pow_left (n := 5) (by norm_num) hz
    rw [key]
    exact_mod_cast h1
  · apply le_of_pow_le_pow_left (n := 5) (by norm_num) (by exact_mod_cast hhi)
    rw [key]
    exact_mod_cast h2

/-- Bracketing one linearised channel through the power branch. -/
lemma sRGB_bracket (q lo hi : ℚ) (hbranch : ¬(q / 255 ≤ 0.03928))
    (hlo : 0 ≤ lo) (hhi : 0 ≤ hi) (hq : 0 ≤ q)
    (h1 : lo ^ (5 : ℕ) ≤ ((q / 255 + 0.055) / 1.055) ^ (12 : ℕ))
    (h2 : ((q / 255 + 0.055) / 1.055) ^ (12 : ℕ) ≤ hi ^ (5 : ℕ)) :
    (lo : ℝ) ≤ sRGBtoLinear q ∧ sRGBtoLinear q ≤ (hi : ℝ) := by
  rw [sRGBtoLinear]
  rw [if_neg hbranch]
  have hcast : (((q / 255 : ℚ) : ℝ) + 0.055) / 1.055
      = (((q / 255 + 0.055) / 1.055 : ℚ) : ℝ) := by push_cast; ring
  rw [hcast]
  exact rpow24_bounds _ lo hi (by positivity) hlo hhi h1 h2

lemma bracket_chan26 :
    ((1032/100000 : ℚ) : ℝ) ≤ sRGBtoLinear ((26 : ℕ) : ℚ)
      ∧ sRGBtoLinear ((26 : ℕ) : ℚ) ≤ ((1033/100000 : ℚ) : ℝ) :=
  sRGB_bracket _ _ _ (by norm_num) (by norm_num) (by norm_num) (by norm_num)
    (by norm_num) (by norm_num)

lemma bracket_chan75 :
    ((7036/100000 : ℚ) : ℝ) ≤ sRGBtoLinear ((75 : ℕ) : ℚ)
      ∧ sRGBtoLinear ((75 : ℕ) : ℚ) ≤ ((7037/100000 : ℚ) : ℝ) :=
  sRGB_bracket _ _ _ (by norm_num) (by norm_num) (by norm_num) (by norm_num)
    (by norm_num) (by norm_num)

lemma bracket_chan85 :
    ((9084/100000 : ℚ) : ℝ) ≤ sRGBtoLinear ((85 : ℕ) : ℚ)
      ∧ sRGBtoLinear ((85 : ℕ) : ℚ) ≤ ((9085/100000 : ℚ) : ℝ) :=
  sRGB_bracket _ _ _ (by norm_num) (by norm_num) (by norm_num) (by norm_num)
    (by norm_num) (by norm_num)

lemma bracket_chan99 :
    ((12477/100000 : ℚ) : ℝ) ≤ sRGBtoLinear ((99 : ℕ) : ℚ)
      ∧ sRGBtoLinear ((99 : ℕ) : ℚ) ≤ ((12478/100000 : ℚ) : ℝ) :=
  sRGB_bracket _ _ _ (by norm_num) (by norm_num) (by norm_num) (by norm_num)
    (by norm_num) (by norm_num)

lemma bracket_chan110 :
    ((15592/100000 : ℚ) : ℝ) ≤ sRGBtoLinear ((110 : ℕ) : ℚ)
      ∧ sRGBtoLinear ((110 : ℕ) : ℚ) ≤ ((15593/100000 : ℚ) : ℝ) :=
  sRGB_bracket _ _ _ (by norm_num) (by norm_num) (by norm_num) (by norm_num)
    (by norm_num) (by norm_num)

lemma bracket_chan125 :
    ((20507/100000 : ℚ) : ℝ) ≤ sRGBtoLinear ((125 : ℕ) : ℚ)
      ∧ sRGBtoLinear ((125 : ℕ) : ℚ) ≤ ((20508/100000 : ℚ) : ℝ) :=
  sRGB_bracket _ _ _ (by norm_num) (by norm_num) (by norm_num) (by norm_num)
    (by norm_num) (by norm_num)

lemma bracket_chan145 :
    ((28314/100000 : ℚ) : ℝ) ≤ sRGBtoLinear ((145 : ℕ) : ℚ)
      ∧ sRGBtoLinear ((145 : ℕ) : ℚ) ≤ ((28315/100000 : ℚ) : ℝ) :=
  sRGB_bracket _ _ _ (by norm_num) (by norm_num) (by norm_num) (by norm_num)
    (by norm_num) (by norm_num)

lemma bracket_chan146 :
    ((28744/100000 : ℚ) : ℝ) ≤ sRGBtoLinear ((146 : ℕ) : ℚ)
      ∧ sRGBtoLinear ((146 : ℕ) : ℚ) ≤ ((28745/100000 : ℚ) : ℝ) :=
  sRGB_bracket _ _ _ (by norm_num) (by norm_num) (by norm_num) (by norm_num)
    (by norm_num) (by norm_num)

lemma bracket_chan155 :
    ((32777/100000 : ℚ) : ℝ) ≤ sRGBtoLinear ((155 : ℕ) : ℚ)
      ∧ sRGBtoLinear ((155 : ℕ) : ℚ) ≤ ((32778/100000 : ℚ) : ℝ) :=
  sRGB_bracket _ _ _ (by norm_num) (by norm_num) (by norm_num) (by norm_num)
    (by norm_num) (by norm_num)

lemma bracket_chan157 :
    ((33716/100000 : ℚ) : ℝ) ≤ sRGBtoLinear ((157 : ℕ) : ℚ)
      ∧ sRGBtoLinear ((157 : ℕ) : ℚ) ≤ ((33717/100000 : ℚ) : ℝ) :=
  sRGB_bracket _ _ _ (by norm_num) (by norm_num) (by norm_num) (by norm_num)
    (by norm_num) (by norm_num)

lemma bracket_chan164 :
    ((37123/100000 : ℚ) : ℝ) ≤ sRGBtoLinear ((164 : ℕ) : ℚ)
      ∧ sRGBtoLinear ((164 : ℕ) : ℚ) ≤ ((37124/100000 : ℚ) : ℝ) :=
  sRGB_bracket _ _ _ (by norm_num) (by norm_num) (by norm_num) (by norm_num)
    (by norm_num) (by norm_num)

lemma bracket_chan165 :
    ((37626/100000 : ℚ) : ℝ) ≤ sRGBtoLinear ((165 : ℕ) : ℚ)
      ∧ sRGBtoLinear ((165 : ℕ) : ℚ) ≤ ((37627/100000 : ℚ) : ℝ) :=
  sRGB_bracket _ _ _ (by norm_num) (by norm_num) (by norm_num) (by norm_num)
    (by norm_num) (by norm_num)

lemma bracket_chan173 :
    ((41788/100000 : ℚ) : ℝ) ≤ sRGBtoLinear ((173 : ℕ) : ℚ)
      ∧ sRGBtoLinear ((173 : ℕ) : ℚ) ≤ ((41789/100000 : ℚ) : ℝ) :=
  sRGB_bracket _ _ _ (by norm_num) (by norm_num) (by norm_num) (by norm_num)
    (by norm_num) (by norm_num)

lemma bracket_chan179 :
    ((45078/100000 : ℚ) : ℝ) ≤ sRGBtoLinear ((179 : ℕ) : ℚ)
      ∧ sRGBtoLinear ((179 : ℕ) : ℚ) ≤ ((45079/100000 : ℚ) : ℝ) :=
  sRGB_bracket _ _ _ (by norm_num) (by norm_num) (by norm_num) (by norm_num)
    (by norm_num) (by norm_num)

lemma bracket_chan182 :
    ((46778/100000 : ℚ) : ℝ) ≤ sRGBtoLinear ((182 : ℕ) : ℚ)
      ∧ sRGBtoLinear ((182 : ℕ) : ℚ) ≤ ((46779/100000 : ℚ) : ℝ) :=
  sRGB_bracket _ _ _ (by norm_num) (by norm_num) (by norm_num) (by norm_num)
    (by norm_num) (by norm_num)

lemma bracket_chan186 :
    ((49102/100000 : ℚ) : ℝ) ≤ sRGBtoLinear ((186 : ℕ) : ℚ)
      ∧ sRGBtoLinear ((186 : ℕ) : ℚ) ≤ ((49103/100000 : ℚ) : ℝ) :=
  sRGB_bracket _ _ _ (by norm_num) (by norm_num) (by norm_num) (by norm_num)
    (by norm_num) (by norm_num)

lemma bracket_chan190 :
    ((51491/100000 : ℚ) : ℝ) ≤ sRGBtoLinear ((190 : ℕ) : ℚ)
      ∧ sRGBtoLinear ((190 : ℕ) : ℚ) ≤ ((51492/100000 : ℚ) : ℝ) :=
  sRGB_bracket _ _ _ (by norm_num) (by norm_num) (by norm_num) (by norm_num)
    (by norm_num) (by norm_num)

lemma bracket_chan200 :
    ((57758/100000 : ℚ) : ℝ) ≤ sRGBtoLinear ((200 : ℕ) : ℚ)
      ∧ sRGBtoLinear ((200 : ℕ) : ℚ) ≤ ((57759/100000 : ℚ) : ℝ) :=
  sRGB_bracket _ _ _ (by norm_num) (by norm_num) (by norm_num) (by norm_num)
    (by norm_num) (by norm_num)

lemma lum_1a1a1a :
    ∃ L, relativeLuminance "#1a1a1a" = some L
      ∧ ((129 : ℝ) / 12500) ≤ L
      ∧ L ≤ ((1033 : ℝ) / 100000) := by
  refine ⟨_, by rw [relativeLuminance,
    show channels "#1a1a1a" = some (26, 26, 26) from by decide], ?_, ?_⟩
  · have h1 := bracket_chan26.1
    have h2 := bracket_chan26.1
    have h3 := bracket_chan26.1
    push_cast at h1 h2 h3
    linarith
  · have h1 := bracket_chan26.2
    have h2 := bracket_chan26.2
    have h3 := bracket_chan26.2
    push_cast at h1 h2 h3
    linarith

lemma lum_4b5563 :
    ∃ L, relativeLuminance "#4b5563" = some L
      ∧ ((44467849 : ℝ) / 500000000) ≤ L
      ∧ L ≤ ((44472849 : ℝ) / 500000000) := by
  refine ⟨_, by rw [relativeLuminance,
    show channels "#4b5563" = some (75, 85, 99) from by decide], ?_, ?_⟩
  · have h1 := bracket_chan75.1
    have h2 := bracket_chan85.1
    have h3 := bracket_chan99.1
    push_cast at h1 h2 h3
    linarith
  · have h1 := bracket_chan75.2
    have h2 := bracket_chan85.2
    have h3 := bracket_chan99.2
    push_cast at h1 h2 h3
    linarith

lemma lum_6e7d91 :
    ∃ L, relativeLuminance "#6e7d91" = some L
      ∧ ((50064341 : ℝ) / 250000000) ≤ L
      ∧ L ≤ ((50066841 : ℝ) / 250000000) := by
  refine ⟨_, by rw [relativeLuminance,
    show channels "#6e7d91" = some (110, 125, 145) from by decide], ?_, ?_⟩
  · have h1 := bracket_chan110.1
    have h2 := bracket_chan125.1
    have h3 := bracket_chan145.1
    push_cast at h1 h2 h3
    linarith
  · have h1 := bracket_chan110.2
    have h2 := bracket_chan125.2
    have h3 := bracket_chan145.2
    push_cast at h1 h2 h3
    linarith

lemma lum_b6bec8 :
    ∃ L, relativeLuminance "#b6bec8" = some L
      ∧ ((63676867 : ℝ) / 125000000) ≤ L
      ∧ L ≤ ((63678117 : ℝ) / 125000000) := by
  refine ⟨_, by rw [relativeLuminance,
    show channels "#b6bec8" = some (182, 190, 200) from by decide], ?_, ?_⟩
  · have h1 := bracket_chan182.1
    have h2 := bracket_chan190.1
    have h3 := bracket_chan200.1
    push_cast at h1 h2 h3
    linarith
  · have h1 := bracket_chan182.2
    have h2 := bracket_chan190.2
    have h3 := bracket_chan200.2
    push_cast at h1 h2 h3
    linarith

lemma lum_929dad :
    ∃ L, relativeLuminance "#929dad" = some L
      ∧ ((41552189 : ℝ) / 125000000) ≤ L
      ∧ L ≤ ((41553439 : ℝ) / 125000000) := by
  refine ⟨_, by rw [relativeLuminance,
    show channels "#929dad" = some (146, 157, 173) from by decide], ?_, ?_⟩
  · have h1 := bracket_chan146.1
    have h2 := bracket_chan157.1
    have h3 := bracket_chan173.1
    push_cast at h1 h2 h3
    linarith
  · have h1 := bracket_chan146.2
    have h2 := bracket_chan157.2
    have h3 := bracket_chan173.2
    push_cast at h1 h2 h3
    linarith

lemma lum_a4adba :
    ∃ L, relativeLuminance "#a4adba" = some L
      ∧ ((206621459 : ℝ) / 500000000) ≤ L
      ∧ L ≤ ((206626459 : ℝ) / 500000000) := by
  refine ⟨_, by rw [relativeLuminance,
    show channels "#a4adba" = some (164, 173, 186) from by decide], ?_, ?_⟩
  · have h1 := bracket_chan164.1
    have h2 := bracket_chan173.1
    have h3 := bracket_chan186.1
    push_cast at h1 h2 h3
    linarith
  · have h1 := bracket_chan164.2
    have h2 := bracket_chan173.2
    have h3 := bracket_chan186.2
    push_cast at h1 h2 h3
    linarith

lemma lum_9ba5b3 :
    ∃ L, relativeLuminance "#9ba5b3" = some L
      ∧ ((37133137 : ℝ) / 100000000) ≤ L
      ∧ L ≤ ((37134137 : ℝ) / 100000000) := by
  refine ⟨_, by rw [relativeLuminance,
    show channels "#9ba5b3" = some (155, 165, 179) from by decide], ?_, ?_⟩
  · have h1 := bracket_chan155.1
    have h2 := bracket_chan165.1
    have h3 := bracket_chan179.1
    push_cast at h1 h2 h3
    linarith
  · have h1 := bracket_chan155.2
    have h2 := bracket_chan165.2
    have h3 := bracket_chan179.2
    push_cast at h1 h2 h3
    linarith

/-- Unfold `contrastRatio` on two colours with known luminances. -/
lemma contrastRatio_of (c1 c2 : String) {L1 L2 : ℝ}
    (h1 : relativeLuminance c1 = some L1) (h2 : relativeLuminance c2 = some L2) :
    contrastRatio c1 c2 = some ((max L1 L2 + 0.05) / (min L1 L2 + 0.05)) := by
  rw [contrastRatio, h1, h2]

/-- Interval arithmetic for the WCAG ratio when the first colour is
strictly lighter. -/
lemma ratio_bounds_of {L1 L2 a1 b1 a2 b2 : ℝ}
    (h1l : a1 ≤ L1) (h1u : L1 ≤ b1) (h2l : a2 ≤ L2) (h2u : L2 ≤ b2)
    (horder : b2 < a1) (hpos : 0 < a2 + 0.05) :
    (a1 + 0.05) / (b2 + 0.05) ≤ (max L1 L2 + 0.05) / (min L1 L2 + 0.05)
    ∧ (max L1 L2 + 0.05) / (min L1 L2 + 0.05) ≤ (b1 + 0.05) / (a2 + 0.05) := by
  have hle : L2 ≤ L1 := le_trans h2u (le_of_lt (lt_of_lt_of_le horder h1l))
  rw [max_eq_left hle, min_eq_right hle]
  constructor
  · exact div_le_div (by linarith) (by linarith) (by linarith) (by linarith)
  · exact div_le_div (by linarith) (by linarith) (by linarith) (by linarith)

lemma ratio_4b5563 :
    ∃ R, contrastRatio "#4b5563" "#1a1a1a" = some R
      ∧ (2.25 : ℝ) ≤ R ∧ R < 2.35 := by
  obtain ⟨L1, hL1, h1l, h1u⟩ := lum_4b5563
  obtain ⟨L2, hL2, h2l, h2u⟩ := lum_1a1a1a
  have hb := ratio_bounds_of h1l h1u h2l h2u (by norm_num) (by norm_num)
  refine ⟨_, contrastRatio_of _ _ hL1 hL2, ?_, ?_⟩
  · have hx : (2.25 : ℝ)
        ≤ ((44467849 : ℝ)/500000000 + 0.05) / ((1033 : ℝ)/100000 + 0.05) := by norm_num
    linarith [hb.1]
  · have hx : (((44472849 : ℝ)/500000000) + 0.05) / (((129 : ℝ)/12500) + 0.05)
        < 2.35 := by norm_num
    linarith [hb.2]

lemma ratio_6e7d91 :
    ∃ R, contrastRatio "#6e7d91" "#1a1a1a" = some R ∧ R ≤ (6.9 : ℝ) := by
  obtain ⟨L1, hL1, h1l, h1u⟩ := lum_6e7d91
  obtain ⟨L2, hL2, h2l, h2u⟩ := lum_1a1a1a
  have hb := ratio_bounds_of h1l h1u h2l h2u (by norm_num) (by norm_num)
  refine ⟨_, contrastRatio_of _ _ hL1 hL2, ?_⟩
  have hx : (((50066841 : ℝ)/250000000) + 0.05) / (((129 : ℝ)/12500) + 0.05)
      ≤ 6.9 := by norm_num
  linarith [hb.2]

lemma ratio_b6bec8 :
    ∃ R, contrastRatio "#b6bec8" "#1a1a1a" = some R ∧ (7.1 : ℝ) ≤ R := by
  obtain ⟨L1, hL1, h1l, h1u⟩ := lum_b6bec8
  obtain ⟨L2, hL2, h2l, h2u⟩ := lum_1a1a1a
  have hb := ratio_bounds_of h1l h1u h2l h2u (by norm_num) (by norm_num)
  refine ⟨_, contrastRatio_of _ _ hL1 hL2, ?_⟩
  have hx : (7.1 : ℝ)
      ≤ ((63676867 : ℝ)/125000000 + 0.05) / ((1033 : ℝ)/100000 + 0.05) := by norm_num
  linarith [hb.1]

lemma ratio_929dad :
    ∃ R, contrastRatio "#929dad" "#1a1a1a" = some R ∧ R ≤ (6.9 : ℝ) := by
  obtain ⟨L1, hL1, h1l, h1u⟩ := lum_929dad
  obtain ⟨L2, hL2, h2l, h2u⟩ := lum_1a1a1a
  have hb := ratio_bounds_of h1l h1u h2l h2u (by norm_num) (by norm_num)
  refine ⟨_, contrastRatio_of _ _ hL1 hL2, ?_⟩
  have hx : (((41553439 : ℝ)/125000000) + 0.05) / (((129 : ℝ)/12500) + 0.05)
      ≤ 6.9 := by norm_num
  linarith [hb.2]

lemma ratio_a4adba :
    ∃ R, contrastRatio "#a4adba" "#1a1a1a" = some R ∧ (7.1 : ℝ) ≤ R := by
  obtain ⟨L1, hL1, h1l, h1u⟩ := lum_a4adba
  obtain ⟨L2, hL2, h2l, h2u⟩ := lum_1a1a1a
  have hb := ratio_bounds_of h1l h1u h2l h2u (by norm_num) (by norm_num)
  refine ⟨_, contrastRatio_of _ _ hL1 hL2, ?_⟩
  have hx : (7.1 : ℝ)
      ≤ ((206621459 : ℝ)/500000000 + 0.05) / ((1033 : ℝ)/100000 + 0.05) := by norm_num
  linarith [hb.1]

lemma ratio_9ba5b3 :
    ∃ R, contrastRatio "#9ba5b3" "#1a1a1a" = some R
      ∧ (6.9 : ℝ) < R ∧ R < 7 := by
  obtain ⟨L1, hL1, h1l, h1u⟩ := lum_9ba5b3
  obtain ⟨L2, hL2, h2l, h2u⟩ := lum_1a1a1a
  have hb := ratio_bounds_of h1l h1u h2l h2u (by norm_num) (by norm_num)
  refine ⟨_, contrastRatio_of _ _ hL1 hL2, ?_, ?_⟩
  · have hx : (6.9 : ℝ)
        < ((37133137 : ℝ)/100000000 + 0.05) / ((1033 : ℝ)/100000 + 0.05) := by norm_num
    linarith [hb.1]
  · have hx : (((37134137 : ℝ)/100000000) + 0.05) / (((129 : ℝ)/12500) + 0.05)
        < 7 := by norm_num
    linarith [hb.2]

/-- One iteration of the binary search in the lighten direction, driven
by a known test-colour ratio. -/
lemma adjustSearch_step_true (h s : ℚ) (bg : String) (t : ℝ)
    (fuel : ℕ) (minL maxL bestL : ℚ) (hw : maxL - minL > 0.1)
    (R : ℝ) (hR : contrastRatio (hslToHex h s ((minL + maxL) / 2)) bg = some R) :
    adjustSearch h s bg t true (fuel + 1) minL maxL bestL =
      (if |R - t| < 0.1 then (minL + maxL) / 2
       else if R < t then
         adjustSearch h s bg t true fuel ((minL + maxL) / 2) maxL bestL
       else
         adjustSearch h s bg t true fuel minL ((minL + maxL) / 2) ((minL + maxL) / 2)) := by
  rw [adjustSearch]
  rw [if_pos hw]
  dsimp only
  rw [hR]
  simp

/-- The Scenario C search: five iterations — 50, 75, 62.5, 68.75 — and an
early exit at lightness 65.625, whose candidate measures within 0.1 of the
target but below it. -/
lemma search_result_scenarioC :
    adjustSearch 215 (400/29) "#1a1a1a" 7 true 50 0 100 (580/17) = 525/8 := by
  obtain ⟨R1, hR1, hb1⟩ := ratio_6e7d91
  obtain ⟨R2, hR2, hb2⟩ := ratio_b6bec8
  obtain ⟨R3, hR3, hb3⟩ := ratio_929dad
  obtain ⟨R4, hR4, hb4⟩ := ratio_a4adba
  obtain ⟨R5, hR5, hb5l, hb5u⟩ := ratio_9ba5b3
  rw [show (50 : ℕ) = 49 + 1 from rfl,
    adjustSearch_step_true _ _ _ _ _ _ _ _ (by norm_num) R1
      (by rw [show hslToHex 215 (400/29) (((0 : ℚ) + 100) / 2) = "#6e7d91" from by decide]
          exact hR1)]
  rw [if_neg (by rw [abs_sub_lt_iff]; rintro ⟨u1, u2⟩; linarith)]
  rw [if_pos (show R1 < 7 by linarith)]
  rw [show (((0 : ℚ) + 100) / 2) = 50 from by norm_num]
  rw [show (49 : ℕ) = 48 + 1 from rfl,
    adjustSearch_step_true _ _ _ _ _ _ _ _ (by norm_num) R2
      (by rw [show hslToHex 215 (400/29) (((50 : ℚ) + 100) / 2) = "#b6bec8" from by decide]
          exact hR2)]
  rw [if_neg (by rw [abs_sub_lt_iff]; rintro ⟨u1, u2⟩; linarith)]
  rw [if_neg (show ¬(R2 < 7) by linarith)]
  rw [show (((50 : ℚ) + 100) / 2) = 75 from by norm_num]
  rw [show (48 : ℕ) = 47 + 1 from rfl,
    adjustSearch_step_true _ _ _ _ _ _ _ _ (by norm_num) R3
      (by rw [show hslToHex 215 (400/29) (((50 : ℚ) + 75) / 2) = "#929dad" from by decide]
          exact hR3)]
  rw [if_neg (by rw [abs_sub_lt_iff]; rintro ⟨u1, u2⟩; linarith)]
  rw [if_pos (show R3 < 7 by linarith)]
  rw [show (((50 : ℚ) + 75) / 2) = 125/2 from by norm_num]
  rw [show (47 : ℕ) = 46 + 1 from rfl,
    adjustSearch_step_true _ _ _ _ _ _ _ _ (by norm_num) R4
      (by rw [show hslToHex 215 (400/29) (((125/2 : ℚ) + 75) / 2) = "#a4adba" from by decide]
          exact hR4)]
  rw [if_neg (by rw [abs_sub_lt_iff]; rintro ⟨u1, u2⟩; linarith)]
  rw [if_neg (show ¬(R4 < 7) by linarith)]
  rw [show (((125/2 : ℚ) + 75) / 2) = 275/4 from by norm_num]
  rw [show (46 : ℕ) = 45 + 1 from rfl,
    adjustSearch_step_true _ _ _ _ _ _ _ _ (by norm_num) R5
      (by rw [show hslToHex 215 (400/29) (((125/2 : ℚ) + 275/4) / 2) = "#9ba5b3" from by decide]
          exact hR5)]
  rw [if_pos (by rw [abs_sub_lt_iff]; constructor <;> linarith)]
  norm_num

/-- The Scenario C adjustment fails outright: the early-exit candidate
`#9ba5b3` measures below 7, the final re-check rejects it, and the source
returns `null`. -/
lemma adjust_4b5563_none : adjustForContrast "#4b5563" "#1a1a1a" 7 = none := by
  obtain ⟨R0, hR0, h0l, h0u⟩ := ratio_4b5563
  obtain ⟨L2, hL2, h2l, h2u⟩ := lum_1a1a1a
  obtain ⟨R5, hR5, h5l, h5u⟩ := ratio_9ba5b3
  have hnm : ¬ meetsContrast "#4b5563" "#1a1a1a" 7 := by
    rintro ⟨r, hr, hge⟩
    rw [hR0] at hr
    obtain rfl := Option.some.inj hr
    linarith
  rw [adjustForContrast, if_neg hnm]
  rw [show hexToHSL "#4b5563" = some ⟨215, 400/29, 580/17⟩ from by decide, hL2]
  dsimp only
  rw [show decide (L2 < 0.5) = true from decide_eq_true (by push_cast; linarith)]
  rw [search_result_scenarioC]
  rw [show hslToHex 215 (400/29) (525/8) = "#9ba5b3" from by decide]
  have hfin : ¬ meetsContrast "#9ba5b3" "#1a1a1a" 7 := by
    rintro ⟨r, hr, hge⟩
    rw [hR5] at hr
    obtain rfl := Option.some.inj hr
    linarith
  rw [if_neg hfin]

/-- The explicit-colour check fires nothing for Scenario C's card (no
`color` property). -/
lemma scenarioC_colorProp_empty :
    colorPropAdjustment "card" (JObj.cons "bg" (JVal.jstr "#1a1a1a") JObj.nil)
      "#1a1a1a" [("muted", "#4b5563")] = [] := by
  unfold colorPropAdjustment
  rw [show lookupJ (JObj.cons "bg" (JVal.jstr "#1a1a1a") JObj.nil) "color"
      = none from rfl]

/-- The foreground role is absent from Scenario C's colour map. -/
lemma scenarioC_role_foreground_empty :
    roleAdjustment "card" (JObj.cons "bg" (JVal.jstr "#1a1a1a") JObj.nil)
      "#1a1a1a" [("muted", "#4b5563")] ("foreground", "foreground") = [] := by
  unfold roleAdjustment
  dsimp only
  rw [if_neg (by decide)]
  rw [show List.lookup "foreground" [("muted", "#4b5563")] = none from rfl]

/-- The link role (`ahvana`) is absent from Scenario C's colour map. -/
lemma scenarioC_role_link_empty :
    roleAdjustment "card" (JObj.cons "bg" (JVal.jstr "#1a1a1a") JObj.nil)
      "#1a1a1a" [("muted", "#4b5563")] ("link", "ahvana") = [] := by
  unfold roleAdjustment
  dsimp only
  rw [if_neg (by decide)]
  rw [show List.lookup "ahvana" [("muted", "#4b5563")] = none from rfl]

/-- The muted role engages the adjustment — its ratio is below 7 — but
`adjustForContrast` returns `null`, so no record is pushed. -/
lemma scenarioC_role_muted_empty :
    roleAdjustment "card" (JObj.cons "bg" (JVal.jstr "#1a1a1a") JObj.nil)
      "#1a1a1a" [("muted", "#4b5563")] ("muted", "muted") = [] := by
  obtain ⟨R0, hR0, h0l, h0u⟩ := ratio_4b5563
  unfold roleAdjustment
  dsimp only
  rw [if_neg (by decide)]
  rw [show List.lookup "muted" [("muted", "#4b5563")] = some "#4b5563" from rfl]
  dsimp only
  rw [if_neg (show ¬("#4b5563" = "") from by decide)]
  rw [if_pos (show jsLt (contrastRatio "#4b5563" "#1a1a1a") 7
      from ⟨R0, hR0, by linarith⟩)]
  rw [adjust_4b5563_none]

/-- Scenario C produces no `ContrastAdjustment` record at all. -/
lemma scenarioC_no_records :
    generateContrastAdjustments rupaScenarioC (buildColorMap rupaScenarioC) = [] := by
  rw [show buildColorMap rupaScenarioC = [("muted", "#4b5563")] from by decide]
  unfold generateContrastAdjustments
  dsimp only
  rw [show entriesJ (objOrEmpty (lookupJ rupaScenarioC "nirmana"))
      = [("card", JVal.jobj (JObj.cons "bg" (JVal.jstr "#1a1a1a") JObj.nil))] from rfl]
  simp only [List.flatMap_cons, List.flatMap_nil, List.append_nil]
  rw [show lookupJ (JObj.cons "bg" (JVal.jstr "#1a1a1a") JObj.nil) "bg"
      = some (JVal.jstr "#1a1a1a") from rfl]
  dsimp only
  rw [if_pos (show jsTruthy (JVal.jstr "#1a1a1a") = true from rfl)]
  rw [show resolveVarToHex (JVal.jstr "#1a1a1a") [("muted", "#4b5563")]
      = some "#1a1a1a" from rfl]
  dsimp only
  rw [scenarioC_colorProp_empty]
  simp only [TEXT_ROLES, List.flatMap_cons, List.flatMap_nil,
    scenarioC_role_foreground_empty, scenarioC_role_muted_empty,
    scenarioC_role_link_empty, List.append_nil, List.nil_append]

/-- `toFixed(1)` renders any ratio in `[2.25, 2.35)` as `"2.3"`. -/
lemma jsToFixed1_23 (x : ℝ) (h1 : (2.25 : ℝ) ≤ x) (h2 : x < 2.35) :
    jsToFixed1 (some x) = "2.3" := by
  rw [jsToFixed1]
  have hfl : ⌊10 * x + 1/2⌋ = (23 : ℤ) := by
    apply Int.floor_eq_iff.mpr
    push_cast
    constructor <;> linarith
  rw [hfl]
  rw [if_neg (by norm_num)]
  rfl

/-- C5 counterexample: for Scenario C's specification — card background
`#1a1a1a`, muted role `#4b5563` — the contrast pass emits NO adjustment
record, and hence no adjusted declaration or comment lines, contradicting
the claimed record and "was 3.9:1 → now 7.0:1" comment. -/
theorem scenarioC_no_adjustment_emitted :
    generateContrastAdjustments rupaScenarioC (buildColorMap rupaScenarioC) = []
    ∧ (generateContrastAdjustmentCSS
        (generateContrastAdjustments rupaScenarioC (buildColorMap rupaScenarioC))).1
      = [] := by
  refine ⟨scenarioC_no_records, ?_⟩
  rw [scenarioC_no_records]
  rfl

/-- C5 amended: the pair measures ≈2.30:1 (printed `2.3`, not `3.9`); the
single-direction search early-exits at lightness 65.625 whose candidate
`#9ba5b3` measures ≈6.98:1, inside the 0.1 tolerance but below 7; the
final re-check therefore fails, `adjustForContrast` returns the failure
signal `null`, and the contrast pass emits no record for the
component. -/
theorem scenarioC_contrast_unattainable :
    (∃ R0, contrastRatio "#4b5563" "#1a1a1a" = some R0 ∧ (2.25 : ℝ) ≤ R0
        ∧ R0 < 2.35 ∧ jsToFixed1 (some R0) = "2.3")
    ∧ adjustForContrast "#4b5563" "#1a1a1a" 7 = none
    ∧ hslToHex 215 (400/29) (525/8) = "#9ba5b3"
    ∧ (∃ R5, contrastRatio "#9ba5b3" "#1a1a1a" = some R5 ∧ (6.9 : ℝ) < R5 ∧ R5 < 7)
    ∧ generateContrastAdjustments rupaScenarioC (buildColorMap rupaScenarioC) = [] := by
  obtain ⟨R0, hR0, h0l, h0u⟩ := ratio_4b5563
  exact ⟨⟨R0, hR0, h0l, h0u, jsToFixed1_23 R0 h0l h0u⟩, adjust_4b5563_none,
    by decide, ratio_9ba5b3, scenarioC_no_records⟩

end
